import Mathlib

/-!
Verification of the HTTP-to-GraphQL protocol adapter implemented in
`packages/server/src/runHttpQuery.ts`.

The development shallowly embeds the module: JavaScript runtime values are
modelled by `JSValue`, the insertion-ordered `Map` underlying `HeaderMap` by an
association list, exceptions by `Except Exc`, and the asynchronous external
collaborators (the execution pipeline `processGraphQLRequest`, the error
formatter `formatApolloErrors`, the ambient `process.env.NODE_ENV` and the
platform's `JSON.parse`) by a record of function parameters (`Collaborators`).
The caller-visible mutation of the `options` argument is made explicit by
returning the final state of that object alongside the response.
-/

/-- Model of a JavaScript runtime value as it can appear in a request body,
search parameters, JSON documents and GraphQL responses.  Numbers are modelled
as integers (no claim depends on non-integral numbers); `buffer` models a raw
Node.js `Buffer`; `undefined` is distinct from `null` exactly as in
JavaScript.  An `obj` is the ordered own-enumerable-field list of a plain
object; objects built by `JSON.parse` or object literals have pairwise
distinct keys, and field access reads the first matching key. -/
inductive JSValue where
  | undefined : JSValue
  | null : JSValue
  | bool : Bool → JSValue
  | num : Int → JSValue
  | str : String → JSValue
  | arr : List JSValue → JSValue
  | obj : List (String × JSValue) → JSValue
  | buffer : List Nat → JSValue

/-- JavaScript truthiness of a `JSValue` (`undefined`, `null`, `false`, `0`
and the empty string are falsy; every object, array and buffer is truthy). -/
def jsTruthy : JSValue → Bool
  | JSValue.undefined => false
  | JSValue.null => false
  | JSValue.bool b => b
  | JSValue.num n => n != 0
  | JSValue.str s => s != ""
  | JSValue.arr _ => true
  | JSValue.obj _ => true
  | JSValue.buffer _ => true

/-- Field access on an own-enumerable-field list: `o[name]`, yielding
`undefined` when the key is absent. -/
def jsFieldL : List (String × JSValue) → String → JSValue
  | [], _ => JSValue.undefined
  | p :: rest, name => if p.1 = name then p.2 else jsFieldL rest name

/-- Field access `o[name]` on a `JSValue`; non-objects have no own fields
relevant to this module. -/
def jsField (o : JSValue) (name : String) : JSValue :=
  match o with
  | JSValue.obj l => jsFieldL l name
  | _ => JSValue.undefined

/-- An optional value as stored in a JavaScript object field: `none` is the
absent/`undefined` field. -/
def optJS : Option JSValue → JSValue
  | none => JSValue.undefined
  | some v => v

/-! ## The ordered string map underlying `HeaderMap`

`HeaderMap extends Map<string, string>`: iteration order is insertion order,
keys are unique, and `set` on an existing key updates the value in place.  We
model the map state as its entry list. -/

/-- `Map.prototype.get`. -/
def mapGet : List (String × String) → String → Option String
  | [], _ => none
  | p :: rest, k => if p.1 = k then some p.2 else mapGet rest k

/-- `Map.prototype.has`. -/
def mapHas : List (String × String) → String → Bool
  | [], _ => false
  | p :: rest, k => p.1 == k || mapHas rest k

/-- `Map.prototype.delete` (drops the unique entry for the key). -/
def mapDelete : List (String × String) → String → List (String × String)
  | [], _ => []
  | p :: rest, k => if p.1 = k then rest else p :: mapDelete rest k

/-- `Map.prototype.set` without the `HeaderMap` validation: an existing key is
updated in place (its position is preserved), a new key is appended. -/
def mapSetRaw (m : List (String × String)) (k v : String) : List (String × String) :=
  if mapHas m k then m.map (fun p => if p.1 = k then (k, v) else p) else m ++ [(k, v)]

/-- Key-uniqueness invariant of a `Map` entry list. -/
def keysUnique : List (String × String) → Bool
  | [] => true
  | p :: rest => !mapHas rest p.1 && keysUnique rest

set_option maxHeartbeats 4000000 in
/-- The Unicode simple lower-case mapping for code points at or above 0x80:
every such code point whose `String.prototype.toLowerCase` image differs
from itself, paired with its lower-cased code point.  (For U+0130, whose
full lowering is the two-character sequence i plus combining dot above, the
simple mapping U+0069 is recorded; its first character already differs from
U+0130, which is all the fixpoint test below can observe.)  Generated from
the Unicode 14.0 character database. -/
def unicodeLowerTable : List (Nat × Nat) :=
  [(192, 224), (193, 225), (194, 226), (195, 227), (196, 228),
    (197, 229), (198, 230), (199, 231), (200, 232), (201, 233),
    (202, 234), (203, 235), (204, 236), (205, 237), (206, 238),
    (207, 239), (208, 240), (209, 241), (210, 242), (211, 243),
    (212, 244), (213, 245), (214, 246), (216, 248), (217, 249),
    (218, 250), (219, 251), (220, 252), (221, 253), (222, 254),
    (256, 257), (258, 259), (260, 261), (262, 263), (264, 265),
    (266, 267), (268, 269), (270, 271), (272, 273), (274, 275),
    (276, 277), (278, 279), (280, 281), (282, 283), (284, 285),
    (286, 287), (288, 289), (290, 291), (292, 293), (294, 295),
    (296, 297), (298, 299), (300, 301), (302, 303), (304, 105),
    (306, 307), (308, 309), (310, 311), (313, 314), (315, 316),
    (317, 318), (319, 320), (321, 322), (323, 324), (325, 326),
    (327, 328), (330, 331), (332, 333), (334, 335), (336, 337),
    (338, 339), (340, 341), (342, 343), (344, 345), (346, 347),
    (348, 349), (350, 351), (352, 353), (354, 355), (356, 357),
    (358, 359), (360, 361), (362, 363), (364, 365), (366, 367),
    (368, 369), (370, 371), (372, 373), (374, 375), (376, 255),
    (377, 378), (379, 380), (381, 382), (385, 595), (386, 387),
    (388, 389), (390, 596), (391, 392), (393, 598), (394, 599),
    (395, 396), (398, 477), (399, 601), (400, 603), (401, 402),
    (403, 608), (404, 611), (406, 617), (407, 616), (408, 409),
    (412, 623), (413, 626), (415, 629), (416, 417), (418, 419),
    (420, 421), (422, 640), (423, 424), (425, 643), (428, 429),
    (430, 648), (431, 432), (433, 650), (434, 651), (435, 436),
    (437, 438), (439, 658), (440, 441), (444, 445), (452, 454),
    (453, 454), (455, 457), (456, 457), (458, 460), (459, 460),
    (461, 462), (463, 464), (465, 466), (467, 468), (469, 470),
    (471, 472), (473, 474), (475, 476), (478, 479), (480, 481),
    (482, 483), (484, 485), (486, 487), (488, 489), (490, 491),
    (492, 493), (494, 495), (497, 499), (498, 499), (500, 501),
    (502, 405), (503, 447), (504, 505), (506, 507), (508, 509),
    (510, 511), (512, 513), (514, 515), (516, 517), (518, 519),
    (520, 521), (522, 523), (524, 525), (526, 527), (528, 529),
    (530, 531), (532, 533), (534, 535), (536, 537), (538, 539),
    (540, 541), (542, 543), (544, 414), (546, 547), (548, 549),
    (550, 551), (552, 553), (554, 555), (556, 557), (558, 559),
    (560, 561), (562, 563), (570, 11365), (571, 572), (573, 410),
    (574, 11366), (577, 578), (579, 384), (580, 649), (581, 652),
    (582, 583), (584, 585), (586, 587), (588, 589), (590, 591),
    (880, 881), (882, 883), (886, 887), (895, 1011), (902, 940),
    (904, 941), (905, 942), (906, 943), (908, 972), (910, 973),
    (911, 974), (913, 945), (914, 946), (915, 947), (916, 948),
    (917, 949), (918, 950), (919, 951), (920, 952), (921, 953),
    (922, 954), (923, 955), (924, 956), (925, 957), (926, 958),
    (927, 959), (928, 960), (929, 961), (931, 963), (932, 964),
    (933, 965), (934, 966), (935, 967), (936, 968), (937, 969),
    (938, 970), (939, 971), (975, 983), (984, 985), (986, 987),
    (988, 989), (990, 991), (992, 993), (994, 995), (996, 997),
    (998, 999), (1000, 1001), (1002, 1003), (1004, 1005), (1006, 1007),
    (1012, 952), (1015, 1016), (1017, 1010), (1018, 1019), (1021, 891),
    (1022, 892), (1023, 893), (1024, 1104), (1025, 1105), (1026, 1106),
    (1027, 1107), (1028, 1108), (1029, 1109), (1030, 1110), (1031, 1111),
    (1032, 1112), (1033, 1113), (1034, 1114), (1035, 1115), (1036, 1116),
    (1037, 1117), (1038, 1118), (1039, 1119), (1040, 1072), (1041, 1073),
    (1042, 1074), (1043, 1075), (1044, 1076), (1045, 1077), (1046, 1078),
    (1047, 1079), (1048, 1080), (1049, 1081), (1050, 1082), (1051, 1083),
    (1052, 1084), (1053, 1085), (1054, 1086), (1055, 1087), (1056, 1088),
    (1057, 1089), (1058, 1090), (1059, 1091), (1060, 1092), (1061, 1093),
    (1062, 1094), (1063, 1095), (1064, 1096), (1065, 1097), (1066, 1098),
    (1067, 1099), (1068, 1100), (1069, 1101), (1070, 1102), (1071, 1103),
    (1120, 1121), (1122, 1123), (1124, 1125), (1126, 1127), (1128, 1129),
    (1130, 1131), (1132, 1133), (1134, 1135), (1136, 1137), (1138, 1139),
    (1140, 1141), (1142, 1143), (1144, 1145), (1146, 1147), (1148, 1149),
    (1150, 1151), (1152, 1153), (1162, 1163), (1164, 1165), (1166, 1167),
    (1168, 1169), (1170, 1171), (1172, 1173), (1174, 1175), (1176, 1177),
    (1178, 1179), (1180, 1181), (1182, 1183), (1184, 1185), (1186, 1187),
    (1188, 1189), (1190, 1191), (1192, 1193), (1194, 1195), (1196, 1197),
    (1198, 1199), (1200, 1201), (1202, 1203), (1204, 1205), (1206, 1207),
    (1208, 1209), (1210, 1211), (1212, 1213), (1214, 1215), (1216, 1231),
    (1217, 1218), (1219, 1220), (1221, 1222), (1223, 1224), (1225, 1226),
    (1227, 1228), (1229, 1230), (1232, 1233), (1234, 1235), (1236, 1237),
    (1238, 1239), (1240, 1241), (1242, 1243), (1244, 1245), (1246, 1247),
    (1248, 1249), (1250, 1251), (1252, 1253), (1254, 1255), (1256, 1257),
    (1258, 1259), (1260, 1261), (1262, 1263), (1264, 1265), (1266, 1267),
    (1268, 1269), (1270, 1271), (1272, 1273), (1274, 1275), (1276, 1277),
    (1278, 1279), (1280, 1281), (1282, 1283), (1284, 1285), (1286, 1287),
    (1288, 1289), (1290, 1291), (1292, 1293), (1294, 1295), (1296, 1297),
    (1298, 1299), (1300, 1301), (1302, 1303), (1304, 1305), (1306, 1307),
    (1308, 1309), (1310, 1311), (1312, 1313), (1314, 1315), (1316, 1317),
    (1318, 1319), (1320, 1321), (1322, 1323), (1324, 1325), (1326, 1327),
    (1329, 1377), (1330, 1378), (1331, 1379), (1332, 1380), (1333, 1381),
    (1334, 1382), (1335, 1383), (1336, 1384), (1337, 1385), (1338, 1386),
    (1339, 1387), (1340, 1388), (1341, 1389), (1342, 1390), (1343, 1391),
    (1344, 1392), (1345, 1393), (1346, 1394), (1347, 1395), (1348, 1396),
    (1349, 1397), (1350, 1398), (1351, 1399), (1352, 1400), (1353, 1401),
    (1354, 1402), (1355, 1403), (1356, 1404), (1357, 1405), (1358, 1406),
    (1359, 1407), (1360, 1408), (1361, 1409), (1362, 1410), (1363, 1411),
    (1364, 1412), (1365, 1413), (1366, 1414), (4256, 11520), (4257, 11521),
    (4258, 11522), (4259, 11523), (4260, 11524), (4261, 11525), (4262, 11526),
    (4263, 11527), (4264, 11528), (4265, 11529), (4266, 11530), (4267, 11531),
    (4268, 11532), (4269, 11533), (4270, 11534), (4271, 11535), (4272, 11536),
    (4273, 11537), (4274, 11538), (4275, 11539), (4276, 11540), (4277, 11541),
    (4278, 11542), (4279, 11543), (4280, 11544), (4281, 11545), (4282, 11546),
    (4283, 11547), (4284, 11548), (4285, 11549), (4286, 11550), (4287, 11551),
    (4288, 11552), (4289, 11553), (4290, 11554), (4291, 11555), (4292, 11556),
    (4293, 11557), (4295, 11559), (4301, 11565), (5024, 43888), (5025, 43889),
    (5026, 43890), (5027, 43891), (5028, 43892), (5029, 43893), (5030, 43894),
    (5031, 43895), (5032, 43896), (5033, 43897), (5034, 43898), (5035, 43899),
    (5036, 43900), (5037, 43901), (5038, 43902), (5039, 43903), (5040, 43904),
    (5041, 43905), (5042, 43906), (5043, 43907), (5044, 43908), (5045, 43909),
    (5046, 43910), (5047, 43911), (5048, 43912), (5049, 43913), (5050, 43914),
    (5051, 43915), (5052, 43916), (5053, 43917), (5054, 43918), (5055, 43919),
    (5056, 43920), (5057, 43921), (5058, 43922), (5059, 43923), (5060, 43924),
    (5061, 43925), (5062, 43926), (5063, 43927), (5064, 43928), (5065, 43929),
    (5066, 43930), (5067, 43931), (5068, 43932), (5069, 43933), (5070, 43934),
    (5071, 43935), (5072, 43936), (5073, 43937), (5074, 43938), (5075, 43939),
    (5076, 43940), (5077, 43941), (5078, 43942), (5079, 43943), (5080, 43944),
    (5081, 43945), (5082, 43946), (5083, 43947), (5084, 43948), (5085, 43949),
    (5086, 43950), (5087, 43951), (5088, 43952), (5089, 43953), (5090, 43954),
    (5091, 43955), (5092, 43956), (5093, 43957), (5094, 43958), (5095, 43959),
    (5096, 43960), (5097, 43961), (5098, 43962), (5099, 43963), (5100, 43964),
    (5101, 43965), (5102, 43966), (5103, 43967), (5104, 5112), (5105, 5113),
    (5106, 5114), (5107, 5115), (5108, 5116), (5109, 5117), (7312, 4304),
    (7313, 4305), (7314, 4306), (7315, 4307), (7316, 4308), (7317, 4309),
    (7318, 4310), (7319, 4311), (7320, 4312), (7321, 4313), (7322, 4314),
    (7323, 4315), (7324, 4316), (7325, 4317), (7326, 4318), (7327, 4319),
    (7328, 4320), (7329, 4321), (7330, 4322), (7331, 4323), (7332, 4324),
    (7333, 4325), (7334, 4326), (7335, 4327), (7336, 4328), (7337, 4329),
    (7338, 4330), (7339, 4331), (7340, 4332), (7341, 4333), (7342, 4334),
    (7343, 4335), (7344, 4336), (7345, 4337), (7346, 4338), (7347, 4339),
    (7348, 4340), (7349, 4341), (7350, 4342), (7351, 4343), (7352, 4344),
    (7353, 4345), (7354, 4346), (7357, 4349), (7358, 4350), (7359, 4351),
    (7680, 7681), (7682, 7683), (7684, 7685), (7686, 7687), (7688, 7689),
    (7690, 7691), (7692, 7693), (7694, 7695), (7696, 7697), (7698, 7699),
    (7700, 7701), (7702, 7703), (7704, 7705), (7706, 7707), (7708, 7709),
    (7710, 7711), (7712, 7713), (7714, 7715), (7716, 7717), (7718, 7719),
    (7720, 7721), (7722, 7723), (7724, 7725), (7726, 7727), (7728, 7729),
    (7730, 7731), (7732, 7733), (7734, 7735), (7736, 7737), (7738, 7739),
    (7740, 7741), (7742, 7743), (7744, 7745), (7746, 7747), (7748, 7749),
    (7750, 7751), (7752, 7753), (7754, 7755), (7756, 7757), (7758, 7759),
    (7760, 7761), (7762, 7763), (7764, 7765), (7766, 7767), (7768, 7769),
    (7770, 7771), (7772, 7773), (7774, 7775), (7776, 7777), (7778, 7779),
    (7780, 7781), (7782, 7783), (7784, 7785), (7786, 7787), (7788, 7789),
    (7790, 7791), (7792, 7793), (7794, 7795), (7796, 7797), (7798, 7799),
    (7800, 7801), (7802, 7803), (7804, 7805), (7806, 7807), (7808, 7809),
    (7810, 7811), (7812, 7813), (7814, 7815), (7816, 7817), (7818, 7819),
    (7820, 7821), (7822, 7823), (7824, 7825), (7826, 7827), (7828, 7829),
    (7838, 223), (7840, 7841), (7842, 7843), (7844, 7845), (7846, 7847),
    (7848, 7849), (7850, 7851), (7852, 7853), (7854, 7855), (7856, 7857),
    (7858, 7859), (7860, 7861), (7862, 7863), (7864, 7865), (7866, 7867),
    (7868, 7869), (7870, 7871), (7872, 7873), (7874, 7875), (7876, 7877),
    (7878, 7879), (7880, 7881), (7882, 7883), (7884, 7885), (7886, 7887),
    (7888, 7889), (7890, 7891), (7892, 7893), (7894, 7895), (7896, 7897),
    (7898, 7899), (7900, 7901), (7902, 7903), (7904, 7905), (7906, 7907),
    (7908, 7909), (7910, 7911), (7912, 7913), (7914, 7915), (7916, 7917),
    (7918, 7919), (7920, 7921), (7922, 7923), (7924, 7925), (7926, 7927),
    (7928, 7929), (7930, 7931), (7932, 7933), (7934, 7935), (7944, 7936),
    (7945, 7937), (7946, 7938), (7947, 7939), (7948, 7940), (7949, 7941),
    (7950, 7942), (7951, 7943), (7960, 7952), (7961, 7953), (7962, 7954),
    (7963, 7955), (7964, 7956), (7965, 7957), (7976, 7968), (7977, 7969),
    (7978, 7970), (7979, 7971), (7980, 7972), (7981, 7973), (7982, 7974),
    (7983, 7975), (7992, 7984), (7993, 7985), (7994, 7986), (7995, 7987),
    (7996, 7988), (7997, 7989), (7998, 7990), (7999, 7991), (8008, 8000),
    (8009, 8001), (8010, 8002), (8011, 8003), (8012, 8004), (8013, 8005),
    (8025, 8017), (8027, 8019), (8029, 8021), (8031, 8023), (8040, 8032),
    (8041, 8033), (8042, 8034), (8043, 8035), (8044, 8036), (8045, 8037),
    (8046, 8038), (8047, 8039), (8072, 8064), (8073, 8065), (8074, 8066),
    (8075, 8067), (8076, 8068), (8077, 8069), (8078, 8070), (8079, 8071),
    (8088, 8080), (8089, 8081), (8090, 8082), (8091, 8083), (8092, 8084),
    (8093, 8085), (8094, 8086), (8095, 8087), (8104, 8096), (8105, 8097),
    (8106, 8098), (8107, 8099), (8108, 8100), (8109, 8101), (8110, 8102),
    (8111, 8103), (8120, 8112), (8121, 8113), (8122, 8048), (8123, 8049),
    (8124, 8115), (8136, 8050), (8137, 8051), (8138, 8052), (8139, 8053),
    (8140, 8131), (8152, 8144), (8153, 8145), (8154, 8054), (8155, 8055),
    (8168, 8160), (8169, 8161), (8170, 8058), (8171, 8059), (8172, 8165),
    (8184, 8056), (8185, 8057), (8186, 8060), (8187, 8061), (8188, 8179),
    (8486, 969), (8490, 107), (8491, 229), (8498, 8526), (8544, 8560),
    (8545, 8561), (8546, 8562), (8547, 8563), (8548, 8564), (8549, 8565),
    (8550, 8566), (8551, 8567), (8552, 8568), (8553, 8569), (8554, 8570),
    (8555, 8571), (8556, 8572), (8557, 8573), (8558, 8574), (8559, 8575),
    (8579, 8580), (9398, 9424), (9399, 9425), (9400, 9426), (9401, 9427),
    (9402, 9428), (9403, 9429), (9404, 9430), (9405, 9431), (9406, 9432),
    (9407, 9433), (9408, 9434), (9409, 9435), (9410, 9436), (9411, 9437),
    (9412, 9438), (9413, 9439), (9414, 9440), (9415, 9441), (9416, 9442),
    (9417, 9443), (9418, 9444), (9419, 9445), (9420, 9446), (9421, 9447),
    (9422, 9448), (9423, 9449), (11264, 11312), (11265, 11313), (11266, 11314),
    (11267, 11315), (11268, 11316), (11269, 11317), (11270, 11318), (11271, 11319),
    (11272, 11320), (11273, 11321), (11274, 11322), (11275, 11323), (11276, 11324),
    (11277, 11325), (11278, 11326), (11279, 11327), (11280, 11328), (11281, 11329),
    (11282, 11330), (11283, 11331), (11284, 11332), (11285, 11333), (11286, 11334),
    (11287, 11335), (11288, 11336), (11289, 11337), (11290, 11338), (11291, 11339),
    (11292, 11340), (11293, 11341), (11294, 11342), (11295, 11343), (11296, 11344),
    (11297, 11345), (11298, 11346), (11299, 11347), (11300, 11348), (11301, 11349),
    (11302, 11350), (11303, 11351), (11304, 11352), (11305, 11353), (11306, 11354),
    (11307, 11355), (11308, 11356), (11309, 11357), (11310, 11358), (11311, 11359),
    (11360, 11361), (11362, 619), (11363, 7549), (11364, 637), (11367, 11368),
    (11369, 11370), (11371, 11372), (11373, 593), (11374, 625), (11375, 592),
    (11376, 594), (11378, 11379), (11381, 11382), (11390, 575), (11391, 576),
    (11392, 11393), (11394, 11395), (11396, 11397), (11398, 11399), (11400, 11401),
    (11402, 11403), (11404, 11405), (11406, 11407), (11408, 11409), (11410, 11411),
    (11412, 11413), (11414, 11415), (11416, 11417), (11418, 11419), (11420, 11421),
    (11422, 11423), (11424, 11425), (11426, 11427), (11428, 11429), (11430, 11431),
    (11432, 11433), (11434, 11435), (11436, 11437), (11438, 11439), (11440, 11441),
    (11442, 11443), (11444, 11445), (11446, 11447), (11448, 11449), (11450, 11451),
    (11452, 11453), (11454, 11455), (11456, 11457), (11458, 11459), (11460, 11461),
    (11462, 11463), (11464, 11465), (11466, 11467), (11468, 11469), (11470, 11471),
    (11472, 11473), (11474, 11475), (11476, 11477), (11478, 11479), (11480, 11481),
    (11482, 11483), (11484, 11485), (11486, 11487), (11488, 11489), (11490, 11491),
    (11499, 11500), (11501, 11502), (11506, 11507), (42560, 42561), (42562, 42563),
    (42564, 42565), (42566, 42567), (42568, 42569), (42570, 42571), (42572, 42573),
    (42574, 42575), (42576, 42577), (42578, 42579), (42580, 42581), (42582, 42583),
    (42584, 42585), (42586, 42587), (42588, 42589), (42590, 42591), (42592, 42593),
    (42594, 42595), (42596, 42597), (42598, 42599), (42600, 42601), (42602, 42603),
    (42604, 42605), (42624, 42625), (42626, 42627), (42628, 42629), (42630, 42631),
    (42632, 42633), (42634, 42635), (42636, 42637), (42638, 42639), (42640, 42641),
    (42642, 42643), (42644, 42645), (42646, 42647), (42648, 42649), (42650, 42651),
    (42786, 42787), (42788, 42789), (42790, 42791), (42792, 42793), (42794, 42795),
    (42796, 42797), (42798, 42799), (42802, 42803), (42804, 42805), (42806, 42807),
    (42808, 42809), (42810, 42811), (42812, 42813), (42814, 42815), (42816, 42817),
    (42818, 42819), (42820, 42821), (42822, 42823), (42824, 42825), (42826, 42827),
    (42828, 42829), (42830, 42831), (42832, 42833), (42834, 42835), (42836, 42837),
    (42838, 42839), (42840, 42841), (42842, 42843), (42844, 42845), (42846, 42847),
    (42848, 42849), (42850, 42851), (42852, 42853), (42854, 42855), (42856, 42857),
    (42858, 42859), (42860, 42861), (42862, 42863), (42873, 42874), (42875, 42876),
    (42877, 7545), (42878, 42879), (42880, 42881), (42882, 42883), (42884, 42885),
    (42886, 42887), (42891, 42892), (42893, 613), (42896, 42897), (42898, 42899),
    (42902, 42903), (42904, 42905), (42906, 42907), (42908, 42909), (42910, 42911),
    (42912, 42913), (42914, 42915), (42916, 42917), (42918, 42919), (42920, 42921),
    (42922, 614), (42923, 604), (42924, 609), (42925, 620), (42926, 618),
    (42928, 670), (42929, 647), (42930, 669), (42931, 43859), (42932, 42933),
    (42934, 42935), (42936, 42937), (42938, 42939), (42940, 42941), (42942, 42943),
    (42944, 42945), (42946, 42947), (42948, 42900), (42949, 642), (42950, 7566),
    (42951, 42952), (42953, 42954), (42960, 42961), (42966, 42967), (42968, 42969),
    (42997, 42998), (65313, 65345), (65314, 65346), (65315, 65347), (65316, 65348),
    (65317, 65349), (65318, 65350), (65319, 65351), (65320, 65352), (65321, 65353),
    (65322, 65354), (65323, 65355), (65324, 65356), (65325, 65357), (65326, 65358),
    (65327, 65359), (65328, 65360), (65329, 65361), (65330, 65362), (65331, 65363),
    (65332, 65364), (65333, 65365), (65334, 65366), (65335, 65367), (65336, 65368),
    (65337, 65369), (65338, 65370), (66560, 66600), (66561, 66601), (66562, 66602),
    (66563, 66603), (66564, 66604), (66565, 66605), (66566, 66606), (66567, 66607),
    (66568, 66608), (66569, 66609), (66570, 66610), (66571, 66611), (66572, 66612),
    (66573, 66613), (66574, 66614), (66575, 66615), (66576, 66616), (66577, 66617),
    (66578, 66618), (66579, 66619), (66580, 66620), (66581, 66621), (66582, 66622),
    (66583, 66623), (66584, 66624), (66585, 66625), (66586, 66626), (66587, 66627),
    (66588, 66628), (66589, 66629), (66590, 66630), (66591, 66631), (66592, 66632),
    (66593, 66633), (66594, 66634), (66595, 66635), (66596, 66636), (66597, 66637),
    (66598, 66638), (66599, 66639), (66736, 66776), (66737, 66777), (66738, 66778),
    (66739, 66779), (66740, 66780), (66741, 66781), (66742, 66782), (66743, 66783),
    (66744, 66784), (66745, 66785), (66746, 66786), (66747, 66787), (66748, 66788),
    (66749, 66789), (66750, 66790), (66751, 66791), (66752, 66792), (66753, 66793),
    (66754, 66794), (66755, 66795), (66756, 66796), (66757, 66797), (66758, 66798),
    (66759, 66799), (66760, 66800), (66761, 66801), (66762, 66802), (66763, 66803),
    (66764, 66804), (66765, 66805), (66766, 66806), (66767, 66807), (66768, 66808),
    (66769, 66809), (66770, 66810), (66771, 66811), (66928, 66967), (66929, 66968),
    (66930, 66969), (66931, 66970), (66932, 66971), (66933, 66972), (66934, 66973),
    (66935, 66974), (66936, 66975), (66937, 66976), (66938, 66977), (66940, 66979),
    (66941, 66980), (66942, 66981), (66943, 66982), (66944, 66983), (66945, 66984),
    (66946, 66985), (66947, 66986), (66948, 66987), (66949, 66988), (66950, 66989),
    (66951, 66990), (66952, 66991), (66953, 66992), (66954, 66993), (66956, 66995),
    (66957, 66996), (66958, 66997), (66959, 66998), (66960, 66999), (66961, 67000),
    (66962, 67001), (66964, 67003), (66965, 67004), (68736, 68800), (68737, 68801),
    (68738, 68802), (68739, 68803), (68740, 68804), (68741, 68805), (68742, 68806),
    (68743, 68807), (68744, 68808), (68745, 68809), (68746, 68810), (68747, 68811),
    (68748, 68812), (68749, 68813), (68750, 68814), (68751, 68815), (68752, 68816),
    (68753, 68817), (68754, 68818), (68755, 68819), (68756, 68820), (68757, 68821),
    (68758, 68822), (68759, 68823), (68760, 68824), (68761, 68825), (68762, 68826),
    (68763, 68827), (68764, 68828), (68765, 68829), (68766, 68830), (68767, 68831),
    (68768, 68832), (68769, 68833), (68770, 68834), (68771, 68835), (68772, 68836),
    (68773, 68837), (68774, 68838), (68775, 68839), (68776, 68840), (68777, 68841),
    (68778, 68842), (68779, 68843), (68780, 68844), (68781, 68845), (68782, 68846),
    (68783, 68847), (68784, 68848), (68785, 68849), (68786, 68850), (71840, 71872),
    (71841, 71873), (71842, 71874), (71843, 71875), (71844, 71876), (71845, 71877),
    (71846, 71878), (71847, 71879), (71848, 71880), (71849, 71881), (71850, 71882),
    (71851, 71883), (71852, 71884), (71853, 71885), (71854, 71886), (71855, 71887),
    (71856, 71888), (71857, 71889), (71858, 71890), (71859, 71891), (71860, 71892),
    (71861, 71893), (71862, 71894), (71863, 71895), (71864, 71896), (71865, 71897),
    (71866, 71898), (71867, 71899), (71868, 71900), (71869, 71901), (71870, 71902),
    (71871, 71903), (93760, 93792), (93761, 93793), (93762, 93794), (93763, 93795),
    (93764, 93796), (93765, 93797), (93766, 93798), (93767, 93799), (93768, 93800),
    (93769, 93801), (93770, 93802), (93771, 93803), (93772, 93804), (93773, 93805),
    (93774, 93806), (93775, 93807), (93776, 93808), (93777, 93809), (93778, 93810),
    (93779, 93811), (93780, 93812), (93781, 93813), (93782, 93814), (93783, 93815),
    (93784, 93816), (93785, 93817), (93786, 93818), (93787, 93819), (93788, 93820),
    (93789, 93821), (93790, 93822), (93791, 93823), (125184, 125218), (125185, 125219),
    (125186, 125220), (125187, 125221), (125188, 125222), (125189, 125223), (125190, 125224),
    (125191, 125225), (125192, 125226), (125193, 125227), (125194, 125228), (125195, 125229),
    (125196, 125230), (125197, 125231), (125198, 125232), (125199, 125233), (125200, 125234),
    (125201, 125235), (125202, 125236), (125203, 125237), (125204, 125238), (125205, 125239),
    (125206, 125240), (125207, 125241), (125208, 125242), (125209, 125243), (125210, 125244),
    (125211, 125245), (125212, 125246), (125213, 125247), (125214, 125248), (125215, 125249),
    (125216, 125250), (125217, 125251)]

/-- Character-wise `toLowerCase`: the ASCII fast path lowers `A`-`Z`, every
other code point is looked up in the Unicode table.  This module observes
`toLowerCase` only through the fixpoint test `key.toLowerCase() !== key`
(the stored key and the error message both use the original `key`), and a
character-wise map decides that test exactly: a string is a fixpoint of the
Unicode default case conversion precisely when every character is its own
lower-casing. -/
def jsCharToLower (c : Char) : Char :=
  if c.toNat < 128 then
    if 65 ≤ c.toNat ∧ c.toNat ≤ 90 then Char.ofNat (c.toNat + 32) else c
  else
    match unicodeLowerTable.lookup c.toNat with
    | some m => Char.ofNat m
    | none => c

/-- `String.prototype.toLowerCase`, character-wise (see `jsCharToLower`). -/
def jsToLowerCase (s : String) : String :=
  String.mk (s.data.map jsCharToLower)

/-- Every stored header name is its own lower-casing (the `HeaderMap`
invariant). -/
def headersAllLower (l : List (String × String)) : Bool :=
  l.all (fun p => jsToLowerCase p.1 == p.1)

/-- A well-formed `HeaderMap` state: unique keys, all lower-case. -/
def isValidHeaderMap (l : List (String × String)) : Bool :=
  keysUnique l && headersAllLower l

/-- `HeaderMap.prototype.set` (runHttpQuery.ts lines 21-28): throws when the
name is not its own lower-casing, otherwise delegates to `Map.prototype.set`.
The thrown value is a plain `Error`, modelled by the error message. -/
def HeaderMap.set (m : List (String × String)) (key value : String) :
    Except String (List (String × String)) :=
  if jsToLowerCase key ≠ key then
    Except.error ("Headers must be lower-case, unlike " ++ key)
  else
    Except.ok (mapSetRaw m key value)

/-- `new HeaderMap(entries)`: the `Map` constructor calls the overridden `set`
once per entry, so construction fails on the first non-lower-case name. -/
def headerMapOfEntries (l : List (String × String)) :
    Except String (List (String × String)) :=
  l.foldlM (fun m p => HeaderMap.set m p.1 p.2) []

/-- The entry list produced by `new HeaderMap(entries)` when construction does
not throw: the same left fold with the unvalidated `set`. -/
def mapOfEntriesRaw (l : List (String × String)) : List (String × String) :=
  l.foldl (fun m p => mapSetRaw m p.1 p.2) []

/-- The value attached to the last occurrence of a key in an entry list; this
is the value `new Map(entries)` retains for that key. -/
def lastLookup : List (String × String) → String → Option String
  | [], _ => none
  | p :: rest, k =>
    match lastLookup rest k with
    | some v => some v
    | none => if p.1 = k then some p.2 else none

/-- An upper-case basic-latin letter, the characters `toLowerCase` rewrites in
a header name. -/
def isUpperAscii (c : Char) : Bool :=
  decide (65 ≤ c.toNat ∧ c.toNat ≤ 90)

/-! ## Structured errors -/

/-- A generic JavaScript `Error` as this module observes it: a message and the
optional `extensions` record carried by GraphQL-style errors. -/
structure JSError where
  message : String
  extensions : Option (List (String × JSValue))

/-- The `HttpQueryError` class (runHttpQuery.ts lines 30-63).  `headers` is
the entry list of the `HeaderMap` the constructor built from its argument;
`mkHttpQueryError` below performs that construction, so every value produced
through it satisfies `isValidHeaderMap` (proved as
`mkHttpQueryError_headers_valid`). -/
structure HttpQueryError where
  statusCode : Nat
  message : String
  isGraphQLError : Bool
  headers : List (String × String)

/-- A thrown JavaScript value as it is discriminated by the top-level catch:
either an `HttpQueryError` or any other error. -/
inductive Exc where
  | httpQueryError : HttpQueryError → Exc
  | other : JSError → Exc

/-- Construction `new HttpQueryError(statusCode, message, isGraphQLError, headers)`
(defaults: `isGraphQLError = false`, `headers = []`).  The constructor runs
`new HeaderMap(headers ?? [])`, which throws a plain `Error` on the first
non-lower-case header name. -/
def mkHttpQueryError (statusCode : Nat) (message : String) (isGraphQLError : Bool)
    (headers : List (String × String)) : Except Exc HttpQueryError :=
  match headerMapOfEntries headers with
  | Except.error msg => Except.error (Exc.other { message := msg, extensions := none })
  | Except.ok m =>
    Except.ok { statusCode := statusCode, message := message,
                isGraphQLError := isGraphQLError, headers := m }

/-! ## Transport-neutral HTTP shapes -/

/-- The inbound `HTTPGraphQLRequest`: method, parsed body, parsed
query-string parameters and the (unread here) request headers. -/
structure HTTPGraphQLRequest where
  method : String
  body : JSValue
  searchParams : JSValue
  headers : List (String × String)

/-- The outgoing `HTTPGraphQLResponse`.  `bodyChunks` is reserved for the
pipeline's incremental-delivery mode and is always `none` (`null`) in this
module's output; an unset `statusCode` is left for the transport to default. -/
structure HTTPGraphQLResponse where
  statusCode : Option Nat
  headers : List (String × String)
  completeBody : Option String
  bodyChunks : Option Unit
deriving DecidableEq

/-- The mutable headers/status scratch object shared by reference into the
request context (`Pick<HTTPGraphQLResponse, 'headers' | 'statusCode'>`). -/
structure PendingHTTPResponse where
  headers : List (String × String)
  statusCode : Option Nat
deriving DecidableEq

/-- `HttpQueryError.prototype.asHTTPGraphQLResponse` (lines 51-62): status and
message are copied, and the headers are a fresh `HeaderMap` seeded with
`content-type: text/plain` followed by the error's own entries, so an
error-supplied `content-type` overrides the default.  The `HeaderMap`
construction cannot throw here because the constructor already validated
`headers` (see `headerMapOfEntries_of_valid`), so the raw fold is its exact
behaviour. -/
def HttpQueryError.asHTTPGraphQLResponse (e : HttpQueryError) : HTTPGraphQLResponse :=
  { statusCode := some e.statusCode,
    headers := mapOfEntriesRaw (("content-type", "text/plain") :: e.headers),
    completeBody := some e.message,
    bodyChunks := none }

/-! ## JSON serialization (`JSON.stringify`) -/

/-- Lower-case hexadecimal digit. -/
def hexDigit (n : Nat) : Char :=
  if n < 10 then Char.ofNat (48 + n) else Char.ofNat (87 + n)

/-- Four-digit hexadecimal rendering used by the `\u00XX` escapes. -/
def hex4 (n : Nat) : String :=
  String.mk [hexDigit (n / 4096 % 16), hexDigit (n / 256 % 16),
             hexDigit (n / 16 % 16), hexDigit (n % 16)]

/-- Per-character escaping of `JSON.stringify` string output. -/
def jsonEscapeChar (c : Char) : String :=
  if c = Char.ofNat 34 then "\\\""
  else if c = Char.ofNat 92 then "\\\\"
  else if c = Char.ofNat 8 then "\\b"
  else if c = Char.ofNat 12 then "\\f"
  else if c = Char.ofNat 10 then "\\n"
  else if c = Char.ofNat 13 then "\\r"
  else if c = Char.ofNat 9 then "\\t"
  else if c.toNat < 32 then "\\u" ++ hex4 c.toNat
  else String.singleton c

/-- `JSON.stringify` of a string value. -/
def jsonQuote (s : String) : String :=
  "\"" ++ String.join (s.data.map jsonEscapeChar) ++ "\""

/-- Comma-joined decimal rendering of a byte list (`Buffer#toJSON` data). -/
def natListCommas : List Nat → String
  | [] => ""
  | [n] => Nat.repr n
  | n :: rest => Nat.repr n ++ "," ++ natListCommas rest

mutual

/-- `JSON.stringify` over the `JSValue` model.  Object fields holding
`undefined` are omitted; `undefined` array elements serialize as `null`; a
`Buffer` serializes through its `toJSON` as `{type: "Buffer", data: [...]}`.
A top-level `undefined` renders as the text a caller would observe after the
string concatenation in `prettyJSONStringify`. -/
def jsonStringify : JSValue → String
  | JSValue.undefined => "undefined"
  | JSValue.null => "null"
  | JSValue.bool b => cond b "true" "false"
  | JSValue.num n => Int.repr n
  | JSValue.str s => jsonQuote s
  | JSValue.arr l => "[" ++ jsonArrBody l ++ "]"
  | JSValue.obj l => "\x7b" ++ jsonObjBody l ++ "\x7d"
  | JSValue.buffer bs => "\x7b\"type\":\"Buffer\",\"data\":[" ++ natListCommas bs ++ "]\x7d"

/-- Array elements, comma separated, `undefined` rendered as `null`. -/
def jsonArrBody : List JSValue → String
  | [] => ""
  | [JSValue.undefined] => "null"
  | [v] => jsonStringify v
  | JSValue.undefined :: rest => "null," ++ jsonArrBody rest
  | v :: rest => jsonStringify v ++ "," ++ jsonArrBody rest

/-- Object fields, comma separated, `undefined`-valued fields skipped. -/
def jsonObjBody : List (String × JSValue) → String
  | [] => ""
  | (_, JSValue.undefined) :: rest => jsonObjBody rest
  | (k, v) :: rest =>
    let fld := jsonQuote k ++ ":" ++ jsonStringify v
    let r := jsonObjBody rest
    if r = "" then fld else fld ++ "," ++ r

end

/-- `prettyJSONStringify` (lines 350-352): serialized JSON plus one trailing
newline. -/
def prettyJSONStringify (v : JSValue) : String :=
  jsonStringify v ++ "\n"

/-! ## GraphQL request/response shapes and collaborators -/

/-- `OperationTypeNode` from graphql-js: the kind of the resolved operation. -/
inductive OperationTypeNode where
  | query : OperationTypeNode
  | mutation : OperationTypeNode
  | subscription : OperationTypeNode
deriving DecidableEq

/-- The slice of graphql-js's `OperationDefinitionNode` read by this module:
the `didResolveOperation` hook destructures `{ operation }` and reads
`operation.operation`. -/
structure OperationDefinitionNode where
  operation : OperationTypeNode

/-- The slice of a request listener this module defines: the
`didResolveOperation` hook, which may throw. -/
structure GraphQLRequestListener where
  didResolveOperation : OperationDefinitionNode → Except Exc Unit

/-- The slice of an `ApolloServerPlugin` this module touches: `requestDidStart`
returning an optional listener. -/
structure ApolloServerPlugin where
  requestDidStart : Unit → Except Exc (Option GraphQLRequestListener)

/-- The normalized GraphQL operation request built by the request normalizer
(the `GraphQLRequest` assembled at lines 175-181 / 194-209). -/
structure GraphQLRequest where
  query : Option String
  operationName : Option String
  variables_ : Option JSValue
  extensions : Option JSValue
  http : HTTPGraphQLRequest

/-- The user's `formatError` hook: consumed opaquely by the external error
formatter. -/
def FormatErrorHook : Type := JSError → JSValue

/-- `GraphQLServerOptions`, restricted to the fields this module reads, plus
`extraFields` standing for every remaining configuration field (carried along
untouched, so frame claims about "no other field" are expressible). -/
structure GraphQLServerOptions where
  schema : JSValue
  logger : JSValue
  debug : Option Bool
  nodeEnv : Option String
  plugins : Option (List ApolloServerPlugin)
  formatError : Option FormatErrorHook
  cache : JSValue
  extraFields : List (String × JSValue)

/-- The per-request `GraphQLRequestContext` assembled at lines 257-284.
`responseHttp` is the shared scratch response (`response: { http: ... }`);
`overallCachePolicy` and `metrics` are opaque to this module. -/
structure GraphQLRequestContext where
  logger : JSValue
  schema : JSValue
  request : GraphQLRequest
  responseHttp : PendingHTTPResponse
  context : JSValue
  cache : JSValue
  debug : Option Bool
  metrics : JSValue
  overallCachePolicy : JSValue

/-- The pipeline's `GraphQLResponse`: optional formatted errors, optional data
(`none` models an entirely absent `data` field, `some JSValue.null` a `null`
one), optional extensions, and the optional partial HTTP response it chose to
attach. -/
structure GraphQLResponse where
  errors : Option (List JSValue)
  data_ : Option JSValue
  extensions : Option JSValue
  http : Option PendingHTTPResponse

/-- The external collaborators and ambient platform state this module calls
into, threaded explicitly: `process.env.NODE_ENV`, `JSON.parse` (failure is
`none`), `formatApolloErrors(errors, {debug, formatter})` from `./errors`, and
`processGraphQLRequest` from `./requestPipeline`.  A pipeline call receives
the options and request context and either throws or returns its
`GraphQLResponse` together with the final state of the shared scratch
response. -/
structure Collaborators where
  processEnvNodeEnv : Option String
  jsonParse : String → Option JSValue
  formatApolloErrors : List JSError → Option Bool → Option FormatErrorHook → List JSValue
  processGraphQLRequest : GraphQLServerOptions → GraphQLRequestContext →
    Except Exc (GraphQLResponse × PendingHTTPResponse)

/-! ## Request normalization helpers (lines 69-148) -/

/-- `debugFromNodeEnv(nodeEnv = NODE_ENV)` (lines 73-75), with the module
constant `NODE_ENV = process.env.NODE_ENV ?? ''` passed explicitly as
`ambient`. -/
def debugFromNodeEnv (ambient : String) (nodeEnv : Option String) : Bool :=
  let n := nodeEnv.getD ambient
  n != "production" && n != "test"

/-- `fieldIfString` (lines 77-85). -/
def fieldIfString (o : JSValue) (fieldName : String) : Option String :=
  match jsField o fieldName with
  | JSValue.str s => some s
  | _ => none

/-- `isStringRecord` (lines 122-124): truthy, of object type, not a `Buffer`,
not an array. -/
def isStringRecord : JSValue → Bool
  | JSValue.obj _ => true
  | _ => false

/-- `isNonEmptyStringRecord` (lines 126-128): a string record with at least
one key. -/
def isNonEmptyStringRecord : JSValue → Bool
  | JSValue.obj l => !l.isEmpty
  | _ => false

/-- `fieldIfRecord` (lines 112-120). -/
def fieldIfRecord (o : JSValue) (fieldName : String) : Option JSValue :=
  if isStringRecord (jsField o fieldName) then some (jsField o fieldName) else none

/-- `jsonParsedFieldIfNonEmptyString` (lines 87-110): a non-empty string field
is `JSON.parse`d; parse failure throws a 400 naming the field, a non-record
parse result throws a 400 asking for an object; anything else yields no
value. -/
def jsonParsedFieldIfNonEmptyString (jsonParse : String → Option JSValue)
    (o : JSValue) (fieldName : String) : Except Exc (Option JSValue) :=
  match jsField o fieldName with
  | JSValue.str s =>
    if s ≠ "" then
      match jsonParse s with
      | none => do
        let e ← mkHttpQueryError 400
          ("The " ++ fieldName ++ " search parameter contains invalid JSON.") false []
        Except.error (Exc.httpQueryError e)
      | some hopefullyRecord =>
        if !isStringRecord hopefullyRecord then do
          let e ← mkHttpQueryError 400
            ("The " ++ fieldName ++ " search parameter should contain a JSON-encoded object.")
            false []
          Except.error (Exc.httpQueryError e)
        else
          Except.ok (some hopefullyRecord)
    else
      Except.ok none
  | _ => Except.ok none

/-- The long diagnostic for an already-parsed query document (lines 136-144). -/
def parsedQueryDiagnostic : String :=
  "GraphQL queries must be strings. It looks like you're sending the " ++
  "internal graphql-js representation of a parsed query in your " ++
  "request instead of a request in the GraphQL query language. You " ++
  "can convert an AST to a string using the `print` function from " ++
  "`graphql`, or use a client like `apollo-client` which converts " ++
  "the internal representation to a string for you."

/-- `query.kind === 'Document'`: the heuristic marker of a parsed query. -/
def hasDocumentKind (query : JSValue) : Bool :=
  match jsField query "kind" with
  | JSValue.str s => s == "Document"
  | _ => false

/-- `ensureQueryIsStringOrMissing` (lines 130-148). -/
def ensureQueryIsStringOrMissing (query : JSValue) : Except Exc Unit :=
  if !jsTruthy query || (match query with | JSValue.str _ => true | _ => false) then
    Except.ok ()
  else if hasDocumentKind query then do
    let e ← mkHttpQueryError 400 parsedQueryDiagnostic false []
    Except.error (Exc.httpQueryError e)
  else do
    let e ← mkHttpQueryError 400 "GraphQL queries must be strings." false []
    Except.error (Exc.httpQueryError e)

/-! ## The method switch, method policy and response translation -/

/-- The `switch (httpRequest.method)` block (lines 163-219): either an early
normal return of an error response (`Sum.inl`), a normalized request
(`Sum.inr`), or a thrown error. -/
def normalizeRequest (ext : Collaborators) (httpRequest : HTTPGraphQLRequest) :
    Except Exc (Sum HTTPGraphQLResponse GraphQLRequest) := do
  if httpRequest.method = "POST" then
    if !isNonEmptyStringRecord httpRequest.body then do
      let e ← mkHttpQueryError 400
        "POST body missing, invalid Content-Type, or JSON object has no keys." false []
      return Sum.inl e.asHTTPGraphQLResponse
    else do
      ensureQueryIsStringOrMissing (jsField httpRequest.body "query")
      return Sum.inr
        { query := fieldIfString httpRequest.body "query",
          operationName := fieldIfString httpRequest.body "operationName",
          variables_ := fieldIfRecord httpRequest.body "variables",
          extensions := fieldIfRecord httpRequest.body "extensions",
          http := httpRequest }
  else if httpRequest.method = "GET" then
    if !isNonEmptyStringRecord httpRequest.searchParams then do
      let e ← mkHttpQueryError 400 "GET query missing." false []
      return Sum.inl e.asHTTPGraphQLResponse
    else do
      ensureQueryIsStringOrMissing (jsField httpRequest.searchParams "query")
      let vars ← jsonParsedFieldIfNonEmptyString ext.jsonParse
        httpRequest.searchParams "variables"
      let exts ← jsonParsedFieldIfNonEmptyString ext.jsonParse
        httpRequest.searchParams "extensions"
      return Sum.inr
        { query := fieldIfString httpRequest.searchParams "query",
          operationName := fieldIfString httpRequest.searchParams "operationName",
          variables_ := vars,
          extensions := exts,
          http := httpRequest }
  else do
    let e ← mkHttpQueryError 405 "Apollo Server supports only GET/POST requests." false
      [("allow", "GET, POST")]
    return Sum.inl e.asHTTPGraphQLResponse

/-- The pipeline extension prepended for GET requests (lines 226-241): its
`didResolveOperation` hook throws a 405 `HttpQueryError` with `allow: POST`
unless the resolved operation is a query. -/
def getOnlyQueryPlugin : ApolloServerPlugin :=
  { requestDidStart := fun _ =>
      Except.ok (some
        { didResolveOperation := fun opctx =>
            if opctx.operation ≠ OperationTypeNode.query then do
              let e ← mkHttpQueryError 405 "GET supports only query operation" false
                [("allow", "POST")]
              Except.error (Exc.httpQueryError e)
            else
              Except.ok () }) }

/-- The plugin list handed to the pipeline (lines 221-242): a copy of the
configured plugins, with `getOnlyQueryPlugin` unshifted in front when the
method is GET. -/
def requestPlugins (method : String) (plugins : List ApolloServerPlugin) :
    List ApolloServerPlugin :=
  if method = "GET" then getOnlyQueryPlugin :: plugins else plugins

/-- The local copy of `options` taken at lines 246-249: every field of the
caller's object, with the adjusted plugin list. -/
def pipelineOptions (httpRequest : HTTPGraphQLRequest) (options : GraphQLServerOptions) :
    GraphQLServerOptions :=
  { options with plugins := some (requestPlugins httpRequest.method (options.plugins.getD [])) }

/-- The initial shared scratch response (lines 251-255). -/
def initialPending : PendingHTTPResponse :=
  { headers := [("content-type", "application/json")], statusCode := none }

/-- Stands for the ambient `console` object used when no logger is
configured. -/
def consoleObject : JSValue := JSValue.str "console"

/-- `cloneObject` (lines 354-356): a shallow, prototype-preserving copy.  On
pure values a shallow copy is the value itself; the aliasing it prevents is
not observable in this embedding. -/
def cloneObject (o : JSValue) : JSValue := o

/-- Modelled from the spec: `newCachePolicy` lives in `./cachePolicy`, which
is not part of the sources; the spec says only that it "produces a fresh
overall-cache-policy object" whose contents this adapter does not interpret,
so it is an uninterpreted constant here. -/
def newCachePolicy : JSValue := JSValue.obj []

/-- The `GraphQLRequestContext` assembled at lines 257-284, with
`options.logger || console` for the logger and a shallow context copy. -/
def buildRequestContext (context : JSValue) (options : GraphQLServerOptions)
    (graphqlRequest : GraphQLRequest) : GraphQLRequestContext :=
  { logger := if jsTruthy options.logger then options.logger else consoleObject,
    schema := options.schema,
    request := graphqlRequest,
    responseHttp := initialPending,
    context := cloneObject context,
    cache := options.cache,
    debug := options.debug,
    metrics := JSValue.obj [],
    overallCachePolicy := newCachePolicy }

/-- `response.http?.statusCode || 400` (line 292): a missing partial response,
a missing status, and a zero (falsy) status all default to 400. -/
def statusOrDefault (http : Option PendingHTTPResponse) : Nat :=
  match http with
  | none => 400
  | some p =>
    match p.statusCode with
    | none => 400
    | some n => if n = 0 then 400 else n

/-- `serializeGraphQLResponse` (lines 337-347): the envelope with the fixed
field order `errors, data, extensions` (absent fields serialize as skipped
keys). -/
def serializeGraphQLResponse (response : GraphQLResponse) : JSValue :=
  JSValue.obj
    [("errors", match response.errors with
                | some es => JSValue.arr es
                | none => JSValue.undefined),
     ("data", optJS response.data_),
     ("extensions", optJS response.extensions)]

/-- The response translation after the pipeline returns (lines 287-317).  In
the pre-execution-failure branch the headers are copied into a fresh
`HeaderMap` seeded with `content-type: application/json`; spreading
`response.http?.headers.entries()` when `http` is absent throws a
`TypeError`, and a non-lower-case pipeline-supplied header name would make
the copy throw — both land in the top-level catch.  In the normal branch
`content-length` is set on the shared scratch response and the response is
spread from it. -/
def translateResponse (response : GraphQLResponse) (pending : PendingHTTPResponse) :
    Except Exc HTTPGraphQLResponse :=
  match response.errors, response.data_ with
  | some errs, none =>
    let status := statusOrDefault response.http
    match response.http with
    | none =>
      Except.error (Exc.other
        { message := "undefined is not iterable (cannot read property Symbol(Symbol.iterator))",
          extensions := none })
    | some p =>
      match headerMapOfEntries (("content-type", "application/json") :: p.headers) with
      | Except.error msg => Except.error (Exc.other { message := msg, extensions := none })
      | Except.ok hs =>
        Except.ok
          { statusCode := some status,
            headers := hs,
            completeBody := some (prettyJSONStringify (JSValue.obj
              [("errors", JSValue.arr errs), ("extensions", optJS response.extensions)])),
            bodyChunks := none }
  | _, _ =>
    let body := prettyJSONStringify (serializeGraphQLResponse response)
    match HeaderMap.set pending.headers "content-length" (Nat.repr body.utf8ByteSize) with
    | Except.error msg => Except.error (Exc.other { message := msg, extensions := none })
    | Except.ok hs =>
      Except.ok
        { statusCode := pending.statusCode,
          headers := hs,
          completeBody := some body,
          bodyChunks := none }

/-! ## The adapter entry point -/

/-- The body of the `try` block of `runHttpQuery` (lines 156-317), after the
`options.debug` default has been written: normalize, attach the method
policy, build the request context, run the pipeline, translate. -/
def runHttpQueryTry (ext : Collaborators) (httpRequest : HTTPGraphQLRequest)
    (context : JSValue) (options : GraphQLServerOptions) :
    Except Exc HTTPGraphQLResponse := do
  match ← normalizeRequest ext httpRequest with
  | Sum.inl earlyResponse => return earlyResponse
  | Sum.inr graphqlRequest => do
    let options2 := pipelineOptions httpRequest options
    let requestContext := buildRequestContext context options2 graphqlRequest
    let (response, pending) ← ext.processGraphQLRequest options2 requestContext
    translateResponse response pending

/-- The caller's `options` object as it stands after line 156-159: when
`debug` is unset, the nodeEnv-derived default is written onto it. -/
def defaultedOptions (ext : Collaborators) (options : GraphQLServerOptions) :
    GraphQLServerOptions :=
  match options.debug with
  | none =>
    { options with
      debug := some (debugFromNodeEnv (ext.processEnvNodeEnv.getD "") options.nodeEnv) }
  | some _ => options

/-- The top-level catch (lines 318-334): an `HttpQueryError` converts to its
own response; anything else becomes a 500 whose body holds the externally
formatted error.  (`options.debug` and `options.formatError` agree between
the original object and the local copy, so using the defaulted options here
is exact.) -/
def catchResponse (ext : Collaborators) (options : GraphQLServerOptions) :
    Exc → HTTPGraphQLResponse
  | Exc.httpQueryError e => e.asHTTPGraphQLResponse
  | Exc.other err =>
    { statusCode := some 500,
      headers := [("content-type", "application/json")],
      completeBody := some (prettyJSONStringify (JSValue.obj
        [("errors", JSValue.arr
          (ext.formatApolloErrors [err] options.debug options.formatError))])),
      bodyChunks := none }

/-- `runHttpQuery` (lines 151-335).  The second component of the result is
the caller-visible final state of the `options` argument (the `debug` default
is assigned onto the caller's object; the later plugin adjustment happens on
a local copy). -/
def runHttpQuery (ext : Collaborators) (httpRequest : HTTPGraphQLRequest)
    (context : JSValue) (options : GraphQLServerOptions) :
    HTTPGraphQLResponse × GraphQLServerOptions :=
  let options1 := defaultedOptions ext options
  (match runHttpQueryTry ext httpRequest context options1 with
   | Except.ok response => response
   | Except.error e => catchResponse ext options1 e,
   options1)

/-! ## The context function executor (lines 358-396) -/

/-- The options record of `executeContextFunction`. -/
structure ContextFunctionOptions where
  formatter : Option FormatErrorHook
  debug : Option Bool

/-- `ContextFunctionExecutionResult`: either an error response or the
constructed context. -/
inductive ContextFunctionExecutionResult where
  | failure : HTTPGraphQLResponse → ContextFunctionExecutionResult
  | success : JSValue → ContextFunctionExecutionResult

/-- `e.extensions && e.extensions.code && e.extensions.code !== 'INTERNAL_SERVER_ERROR'`:
a truthy extensions code different from the generic internal-error code. -/
def isNonInternalErrorCode (e : JSError) : Bool :=
  match e.extensions with
  | none => false
  | some ext =>
    let code := jsFieldL ext "code"
    jsTruthy code &&
      (match code with
       | JSValue.str s => s != "INTERNAL_SERVER_ERROR"
       | _ => true)

/-- `executeContextFunction` (lines 363-396): run the user context function;
on failure rewrite the message with the "Context creation failed: " prefix,
choose 400 for client-attributable codes and 500 otherwise, and wrap the
externally formatted error in the standard envelope. -/
def executeContextFunction
    (formatApolloErrors : List JSError → Option Bool → Option FormatErrorHook → List JSValue)
    (contextFunction : Unit → Except JSError JSValue)
    (options : ContextFunctionOptions) : ContextFunctionExecutionResult :=
  match contextFunction () with
  | Except.ok context => ContextFunctionExecutionResult.success context
  | Except.error e =>
    let e2 : JSError := { e with message := "Context creation failed: " ++ e.message }
    let statusCode : Nat := if isNonInternalErrorCode e2 then 400 else 500
    ContextFunctionExecutionResult.failure
      { statusCode := some statusCode,
        headers := [("content-type", "application/json")],
        completeBody := some (prettyJSONStringify (JSValue.obj
          [("errors", JSValue.arr
            (formatApolloErrors [e2] options.debug options.formatter))])),
        bodyChunks := none }

/-! ## Concrete collaborators and fixtures used by witness theorems -/

/-- Is the value a JavaScript string? -/
def isJSString : JSValue → Bool
  | JSValue.str _ => true
  | _ => false

/-- A pipeline result representing a successful empty execution. -/
def emptyGraphQLResponse : GraphQLResponse :=
  { errors := none, data_ := some (JSValue.obj []), extensions := none, http := none }

/-- A pipeline that resolves a mutation operation: it invokes the
`didResolveOperation` hook of the first configured plugin on a mutation and
propagates whatever that hook throws, as the real pipeline does. -/
def mutationResolvingPipeline :
    GraphQLServerOptions → GraphQLRequestContext →
    Except Exc (GraphQLResponse × PendingHTTPResponse) := fun o c =>
  match (o.plugins.getD []).head? with
  | none => Except.ok (emptyGraphQLResponse, c.responseHttp)
  | some p =>
    match p.requestDidStart () with
    | Except.error x => Except.error x
    | Except.ok none => Except.ok (emptyGraphQLResponse, c.responseHttp)
    | Except.ok (some l) =>
      match l.didResolveOperation { operation := OperationTypeNode.mutation } with
      | Except.error x => Except.error x
      | Except.ok _ => Except.ok (emptyGraphQLResponse, c.responseHttp)

/-- A pipeline returning a fixed response, leaving the scratch response as it
received it. -/
def constPipeline (r : GraphQLResponse) :
    GraphQLServerOptions → GraphQLRequestContext →
    Except Exc (GraphQLResponse × PendingHTTPResponse) := fun _ c =>
  Except.ok (r, c.responseHttp)

/-- A concrete error formatter used in witnesses: renders each error as
an object holding its message. -/
def testFormatApolloErrors :
    List JSError → Option Bool → Option FormatErrorHook → List JSValue := fun errs _ _ =>
  errs.map (fun e => JSValue.obj [("message", JSValue.str e.message)])

/-- Concrete collaborators for witnesses, parameterized by the pipeline and
the JSON parser. -/
def testCollaborators
    (pg : GraphQLServerOptions → GraphQLRequestContext →
      Except Exc (GraphQLResponse × PendingHTTPResponse))
    (jp : String → Option JSValue) : Collaborators :=
  { processEnvNodeEnv := none,
    jsonParse := jp,
    formatApolloErrors := testFormatApolloErrors,
    processGraphQLRequest := pg }

/-- Concrete server options for witnesses (with `debug` already set). -/
def testOptions : GraphQLServerOptions :=
  { schema := JSValue.null, logger := JSValue.undefined, debug := some false,
    nodeEnv := none, plugins := none, formatError := none, cache := JSValue.null,
    extraFields := [] }

/-- Concrete server options with `debug` unset, for the frame-effect witness. -/
def testOptionsNoDebug : GraphQLServerOptions :=
  { schema := JSValue.null, logger := JSValue.undefined, debug := none,
    nodeEnv := none, plugins := none, formatError := none, cache := JSValue.null,
    extraFields := [] }

/-- A well-formed POST request. -/
def testPostRequest : HTTPGraphQLRequest :=
  { method := "POST", body := JSValue.obj [("query", JSValue.str "hello")],
    searchParams := JSValue.undefined, headers := [] }

/-- A GET request whose `variables` search parameter is not valid JSON. -/
def testGetRequestBadVars : HTTPGraphQLRequest :=
  { method := "GET", body := JSValue.undefined,
    searchParams := JSValue.obj
      [("query", JSValue.str "hello"), ("variables", JSValue.str "###")],
    headers := [] }

/-- A GET request carrying only a query. -/
def testGetQueryRequest : HTTPGraphQLRequest :=
  { method := "GET", body := JSValue.undefined,
    searchParams := JSValue.obj [("query", JSValue.str "mutation")], headers := [] }

/-- A PUT request. -/
def testPutRequest : HTTPGraphQLRequest :=
  { method := "PUT", body := JSValue.undefined, searchParams := JSValue.undefined,
    headers := [] }

/-- A successful execution result carrying data. -/
def okDataResponse : GraphQLResponse :=
  { errors := none, data_ := some (JSValue.obj [("hello", JSValue.str "world")]),
    extensions := none, http := none }

/-- A pre-execution failure result that does not carry the partial HTTP
response. -/
def preExecNoHttpResponse : GraphQLResponse :=
  { errors := some [], data_ := none, extensions := none, http := none }

/-- A pre-execution failure result carrying the shared partial HTTP
response. -/
def preExecWithHttpResponse : GraphQLResponse :=
  { errors := some [JSValue.obj [("message", JSValue.str "parse error")]],
    data_ := none, extensions := none,
    http := some { headers := [], statusCode := none } }

/-- The 400 protocol error raised for the bad-JSON `variables` field. -/
def invalidJSONVariablesError : HttpQueryError :=
  { statusCode := 400, message := "The variables search parameter contains invalid JSON.",
    isGraphQLError := false, headers := [] }

/-! ## Shared lemmas about characters, lower-casing and the map model -/

theorem char_toNat_ofNat_of_valid (m : Nat) (h : m.isValidChar) :
    (Char.ofNat m).toNat = m := by
  simp [Char.ofNat, dif_pos h, Char.ofNatAux, Char.toNat, UInt32.toNat, BitVec.toNat_ofNatLt]

theorem jsCharToLower_ne_of_upperAscii (c : Char) (h : isUpperAscii c = true) :
    jsCharToLower c ≠ c := by
  have hc : 65 ≤ c.toNat ∧ c.toNat ≤ 90 := by simpa [isUpperAscii] using h
  have hvalid : (c.toNat + 32).isValidChar := Or.inl (by omega)
  have hform : jsCharToLower c = Char.ofNat (c.toNat + 32) := by
    unfold jsCharToLower
    rw [if_pos (by omega : c.toNat < 128), if_pos hc]
  intro heq
  have h2 := congrArg Char.toNat heq
  rw [hform, char_toNat_ofNat_of_valid _ hvalid] at h2
  omega

theorem jsCharToLower_eq_of_ascii_not_upper (c : Char) (h1 : c.toNat < 128)
    (h2 : isUpperAscii c = false) : jsCharToLower c = c := by
  have h3 : ¬(65 ≤ c.toNat ∧ c.toNat ≤ 90) := by simpa [isUpperAscii] using h2
  unfold jsCharToLower
  rw [if_pos h1, if_neg h3]

theorem jsCharToLower_eq_toLower_of_ascii (c : Char) (h : c.toNat < 128) :
    jsCharToLower c = Char.toLower c := by
  unfold jsCharToLower
  rw [if_pos h]
  simp only [Char.toLower]

theorem list_map_eq_self_iff {α : Type} (f : α → α) (l : List α) :
    l.map f = l ↔ ∀ x ∈ l, f x = x := by
  induction l with
  | nil => simp
  | cons a t ih => simp_all

theorem jsToLowerCase_eq_toLower_of_ascii (s : String)
    (h : ∀ c ∈ s.data, c.toNat < 128) : jsToLowerCase s = s.toLower := by
  rw [String.toLower, String.map_eq, jsToLowerCase]
  exact congrArg String.mk
    (List.map_congr_left (fun c hc => jsCharToLower_eq_toLower_of_ascii c (h c hc)))

theorem jsToLowerCase_eq_self_iff (s : String) :
    jsToLowerCase s = s ↔ ∀ c ∈ s.data, jsCharToLower c = c := by
  rw [jsToLowerCase, show s = ⟨s.data⟩ from rfl]
  simp only [String.ext_iff]
  rw [list_map_eq_self_iff]

theorem mapGet_eq_none_of_not_has (m : List (String × String)) (k : String)
    (h : mapHas m k = false) : mapGet m k = none := by
  induction m with
  | nil => rfl
  | cons p rest ih =>
    simp only [mapHas, Bool.or_eq_false_iff, beq_eq_false_iff_ne, ne_eq] at h
    simp only [mapGet, if_neg h.1]
    exact ih h.2

theorem mapGet_map_replace_self (m : List (String × String)) (k v : String)
    (h : mapHas m k = true) :
    mapGet (m.map (fun p => if p.1 = k then (k, v) else p)) k = some v := by
  induction m with
  | nil => simp [mapHas] at h
  | cons p rest ih =>
    by_cases hp : p.1 = k
    · simp [mapGet, if_pos hp]
    · simp only [mapHas, Bool.or_eq_true, beq_iff_eq] at h
      simp only [List.map_cons, if_neg hp, mapGet, if_neg hp]
      exact ih (h.resolve_left hp)

theorem mapGet_map_replace_ne (m : List (String × String)) (k v k2 : String)
    (h : k2 ≠ k) :
    mapGet (m.map (fun p => if p.1 = k then (k, v) else p)) k2 = mapGet m k2 := by
  induction m with
  | nil => rfl
  | cons p rest ih =>
    by_cases hp : p.1 = k
    · simp only [List.map_cons, if_pos hp, mapGet, hp]
      rw [if_neg (fun he => h he.symm), if_neg (fun he => h he.symm)]
      exact ih
    · simp only [List.map_cons, if_neg hp, mapGet]
      by_cases hpk2 : p.1 = k2
      · simp [hpk2]
      · rw [if_neg hpk2, if_neg hpk2]
        exact ih

theorem mapGet_append_single_self (m : List (String × String)) (k v : String)
    (h : mapHas m k = false) : mapGet (m ++ [(k, v)]) k = some v := by
  induction m with
  | nil => simp [mapGet]
  | cons p rest ih =>
    simp only [mapHas, Bool.or_eq_false_iff, beq_eq_false_iff_ne, ne_eq] at h
    simp only [List.cons_append, mapGet, if_neg h.1]
    exact ih h.2

theorem mapGet_append_single_ne (m : List (String × String)) (k v k2 : String)
    (h : k2 ≠ k) : mapGet (m ++ [(k, v)]) k2 = mapGet m k2 := by
  induction m with
  | nil => simp only [List.nil_append, mapGet, if_neg (Ne.symm h)]
  | cons p rest ih =>
    simp only [List.cons_append, mapGet]
    by_cases hpk2 : p.1 = k2
    · simp [hpk2]
    · rw [if_neg hpk2, if_neg hpk2]
      exact ih

theorem mapGet_mapSetRaw_self (m : List (String × String)) (k v : String) :
    mapGet (mapSetRaw m k v) k = some v := by
  unfold mapSetRaw
  by_cases h : mapHas m k
  · rw [if_pos h]
    exact mapGet_map_replace_self m k v h
  · rw [if_neg h]
    exact mapGet_append_single_self m k v (by simpa using h)

theorem mapGet_mapSetRaw_ne (m : List (String × String)) (k v k2 : String)
    (h : k2 ≠ k) : mapGet (mapSetRaw m k v) k2 = mapGet m k2 := by
  unfold mapSetRaw
  by_cases hh : mapHas m k
  · rw [if_pos hh]
    exact mapGet_map_replace_ne m k v k2 h
  · rw [if_neg hh]
    exact mapGet_append_single_ne m k v k2 h

theorem except_bind_ok {ε α β : Type} (a : α) (f : α → Except ε β) :
    (Except.ok a >>= f : Except ε β) = f a := rfl

theorem except_bind_error {ε α β : Type} (e : ε) (f : α → Except ε β) :
    (Except.error e >>= f : Except ε β) = Except.error e := rfl

theorem replace_fst (p : String × String) (k v : String) :
    (if p.1 = k then (k, v) else p).1 = p.1 := by
  by_cases hp : p.1 = k
  · rw [if_pos hp]
    exact hp.symm
  · rw [if_neg hp]

theorem mapHas_map_replace (m : List (String × String)) (k v k2 : String) :
    mapHas (m.map (fun p => if p.1 = k then (k, v) else p)) k2 = mapHas m k2 := by
  induction m with
  | nil => rfl
  | cons p rest ih =>
    simp only [List.map_cons, mapHas, ih, replace_fst]

theorem keysUnique_map_replace (m : List (String × String)) (k v : String) :
    keysUnique (m.map (fun p => if p.1 = k then (k, v) else p)) = keysUnique m := by
  induction m with
  | nil => rfl
  | cons p rest ih =>
    simp only [List.map_cons, keysUnique, mapHas_map_replace, ih, replace_fst]

theorem mapHas_append_single (m : List (String × String)) (k v k2 : String) :
    mapHas (m ++ [(k, v)]) k2 = (mapHas m k2 || k == k2) := by
  induction m with
  | nil => simp [mapHas]
  | cons p rest ih =>
    simp only [List.cons_append, mapHas, List.append_eq, ih, Bool.or_assoc]

theorem keysUnique_append_single (m : List (String × String)) (k v : String)
    (hk : mapHas m k = false) (h : keysUnique m = true) :
    keysUnique (m ++ [(k, v)]) = true := by
  induction m with
  | nil => simp [keysUnique, mapHas]
  | cons p rest ih =>
    simp only [mapHas, Bool.or_eq_false_iff, beq_eq_false_iff_ne, ne_eq] at hk
    simp only [keysUnique, Bool.and_eq_true, Bool.not_eq_true'] at h
    simp only [List.cons_append, keysUnique, List.append_eq, Bool.and_eq_true,
      Bool.not_eq_true']
    refine ⟨?_, ih hk.2 h.2⟩
    rw [mapHas_append_single, h.1, Bool.false_or]
    exact beq_eq_false_iff_ne.mpr (fun he => hk.1 he.symm)

theorem keysUnique_mapSetRaw (m : List (String × String)) (k v : String)
    (h : keysUnique m = true) : keysUnique (mapSetRaw m k v) = true := by
  unfold mapSetRaw
  by_cases hh : mapHas m k
  · rw [if_pos hh, keysUnique_map_replace]
    exact h
  · rw [if_neg hh]
    exact keysUnique_append_single m k v (by simpa using hh) h

theorem headersAllLower_mapSetRaw (m : List (String × String)) (k v : String)
    (h : headersAllLower m = true) (hk : jsToLowerCase k = k) :
    headersAllLower (mapSetRaw m k v) = true := by
  unfold mapSetRaw
  simp only [headersAllLower, List.all_eq_true, beq_iff_eq] at h ⊢
  by_cases hh : mapHas m k
  · rw [if_pos hh]
    intro p hp
    rcases List.mem_map.mp hp with ⟨q, hq, hqe⟩
    by_cases hqk : q.1 = k
    · rw [if_pos hqk] at hqe
      rw [← hqe]
      exact hk
    · rw [if_neg hqk] at hqe
      rw [← hqe]
      exact h q hq
  · rw [if_neg hh]
    intro p hp
    rcases List.mem_append.mp hp with hp | hp
    · exact h p hp
    · rcases List.mem_singleton.mp hp with rfl
      exact hk

theorem isValidHeaderMap_mapSetRaw (m : List (String × String)) (k v : String)
    (h : isValidHeaderMap m = true) (hk : jsToLowerCase k = k) :
    isValidHeaderMap (mapSetRaw m k v) = true := by
  simp only [isValidHeaderMap, Bool.and_eq_true] at h ⊢
  exact ⟨keysUnique_mapSetRaw m k v h.1, headersAllLower_mapSetRaw m k v h.2 hk⟩

theorem HeaderMap.set_eq_ok (m : List (String × String)) (k v : String)
    (hk : jsToLowerCase k = k) : HeaderMap.set m k v = Except.ok (mapSetRaw m k v) := by
  unfold HeaderMap.set
  rw [if_neg (by simp [hk])]

theorem HeaderMap.set_eq_error (m : List (String × String)) (k v : String)
    (hk : jsToLowerCase k ≠ k) :
    HeaderMap.set m k v = Except.error ("Headers must be lower-case, unlike " ++ k) := by
  unfold HeaderMap.set
  rw [if_pos hk]

theorem foldlM_set_eq_foldl (l : List (String × String))
    (h : headersAllLower l = true) (m : List (String × String)) :
    List.foldlM (fun m p => HeaderMap.set m p.1 p.2) m l =
      Except.ok (List.foldl (fun m p => mapSetRaw m p.1 p.2) m l) := by
  induction l generalizing m with
  | nil => rfl
  | cons p rest ih =>
    simp only [headersAllLower, List.all_cons, Bool.and_eq_true, beq_iff_eq] at h
    rw [List.foldlM_cons, HeaderMap.set_eq_ok m p.1 p.2 h.1, except_bind_ok]
    simp only [List.foldl_cons]
    exact ih (by simpa [headersAllLower] using h.2) (mapSetRaw m p.1 p.2)

theorem headerMapOfEntries_of_valid (l : List (String × String))
    (h : headersAllLower l = true) :
    headerMapOfEntries l = Except.ok (mapOfEntriesRaw l) :=
  foldlM_set_eq_foldl l h []

theorem isValid_foldl_setRaw (l : List (String × String))
    (m : List (String × String)) (hm : isValidHeaderMap m = true)
    (hl : headersAllLower l = true) :
    isValidHeaderMap (List.foldl (fun m p => mapSetRaw m p.1 p.2) m l) = true := by
  induction l generalizing m with
  | nil => exact hm
  | cons p rest ih =>
    simp only [headersAllLower, List.all_cons, Bool.and_eq_true, beq_iff_eq] at hl
    simp only [List.foldl_cons]
    exact ih (mapSetRaw m p.1 p.2) (isValidHeaderMap_mapSetRaw m p.1 p.2 hm hl.1)
      (by simpa [headersAllLower] using hl.2)

theorem isValidHeaderMap_mapOfEntriesRaw (l : List (String × String))
    (h : headersAllLower l = true) : isValidHeaderMap (mapOfEntriesRaw l) = true :=
  isValid_foldl_setRaw l [] (by rfl) h

theorem foldlM_set_ok_valid (l : List (String × String)) :
    ∀ (m r : List (String × String)), isValidHeaderMap m = true →
    List.foldlM (fun m p => HeaderMap.set m p.1 p.2) m l = Except.ok r →
    isValidHeaderMap r = true := by
  induction l with
  | nil =>
    intro m r hm h
    simp only [List.foldlM_nil] at h
    cases h
    exact hm
  | cons p rest ih =>
    intro m r hm h
    rw [List.foldlM_cons] at h
    by_cases hk : jsToLowerCase p.1 = p.1
    · rw [HeaderMap.set_eq_ok m p.1 p.2 hk, except_bind_ok] at h
      exact ih (mapSetRaw m p.1 p.2) r (isValidHeaderMap_mapSetRaw m p.1 p.2 hm hk) h
    · rw [HeaderMap.set_eq_error m p.1 p.2 hk, except_bind_error] at h
      cases h

theorem headerMapOfEntries_ok_valid (l r : List (String × String))
    (h : headerMapOfEntries l = Except.ok r) : isValidHeaderMap r = true :=
  foldlM_set_ok_valid l [] r (by rfl) h

theorem mkHttpQueryError_headers_valid (s : Nat) (msg : String) (g : Bool)
    (hs : List (String × String)) (e : HttpQueryError)
    (h : mkHttpQueryError s msg g hs = Except.ok e) :
    isValidHeaderMap e.headers = true := by
  unfold mkHttpQueryError at h
  cases hh : headerMapOfEntries hs with
  | error msg2 => rw [hh] at h; cases h
  | ok m =>
    rw [hh] at h
    cases h
    exact headerMapOfEntries_ok_valid hs m hh

theorem mkHttpQueryError_of_lower (s : Nat) (msg : String) (g : Bool)
    (hs : List (String × String)) (h : headersAllLower hs = true) :
    mkHttpQueryError s msg g hs =
      Except.ok { statusCode := s, message := msg, isGraphQLError := g,
                  headers := mapOfEntriesRaw hs } := by
  unfold mkHttpQueryError
  rw [headerMapOfEntries_of_valid hs h]

theorem mapHas_eq_isSome_mapGet (m : List (String × String)) (k : String) :
    mapHas m k = (mapGet m k).isSome := by
  induction m with
  | nil => rfl
  | cons p rest ih =>
    simp only [mapHas, mapGet]
    by_cases hp : p.1 = k
    · simp [hp]
    · rw [if_neg hp]
      simp only [beq_eq_false_iff_ne.mpr hp, Bool.false_or]
      exact ih

theorem mapGet_mapDelete_self (m : List (String × String)) (k : String)
    (h : keysUnique m = true) : mapGet (mapDelete m k) k = none := by
  induction m with
  | nil => rfl
  | cons p rest ih =>
    simp only [keysUnique, Bool.and_eq_true, Bool.not_eq_true'] at h
    simp only [mapDelete]
    by_cases hp : p.1 = k
    · rw [if_pos hp]
      rw [← hp]
      exact mapGet_eq_none_of_not_has rest p.1 h.1
    · rw [if_neg hp]
      simp only [mapGet, if_neg hp]
      exact ih h.2

theorem mapGet_mapDelete_ne (m : List (String × String)) (k k2 : String)
    (h : k2 ≠ k) : mapGet (mapDelete m k) k2 = mapGet m k2 := by
  induction m with
  | nil => rfl
  | cons p rest ih =>
    simp only [mapDelete, mapGet]
    by_cases hp : p.1 = k
    · rw [if_pos hp, if_neg (by rw [hp]; exact Ne.symm h)]
    · rw [if_neg hp]
      simp only [mapGet]
      by_cases hpk2 : p.1 = k2
      · simp [hpk2]
      · rw [if_neg hpk2, if_neg hpk2]
        exact ih

theorem mapHas_mapDelete_le (m : List (String × String)) (k k2 : String)
    (h : mapHas (mapDelete m k) k2 = true) : mapHas m k2 = true := by
  induction m with
  | nil => cases h
  | cons p rest ih =>
    simp only [mapDelete] at h
    by_cases hp : p.1 = k
    · rw [if_pos hp] at h
      simp only [mapHas, h, Bool.or_true]
    · rw [if_neg hp] at h
      simp only [mapHas, Bool.or_eq_true] at h ⊢
      rcases h with h | h
      · exact Or.inl h
      · exact Or.inr (ih h)

theorem keysUnique_mapDelete (m : List (String × String)) (k : String)
    (h : keysUnique m = true) : keysUnique (mapDelete m k) = true := by
  induction m with
  | nil => rfl
  | cons p rest ih =>
    simp only [keysUnique, Bool.and_eq_true, Bool.not_eq_true'] at h
    simp only [mapDelete]
    by_cases hp : p.1 = k
    · rw [if_pos hp]
      exact h.2
    · rw [if_neg hp]
      simp only [keysUnique, Bool.and_eq_true, Bool.not_eq_true']
      refine ⟨?_, ih h.2⟩
      cases hd : mapHas (mapDelete rest k) p.1
      · rfl
      · rw [mapHas_mapDelete_le rest k p.1 hd] at h
        cases h.1

theorem mapGet_foldl_setRaw (l : List (String × String)) :
    ∀ (m : List (String × String)) (k : String),
    mapGet (List.foldl (fun m p => mapSetRaw m p.1 p.2) m l) k =
      match lastLookup l k with
      | some v => some v
      | none => mapGet m k := by
  induction l with
  | nil => intro m k; rfl
  | cons p rest ih =>
    intro m k
    simp only [List.foldl_cons, lastLookup]
    rw [ih (mapSetRaw m p.1 p.2) k]
    cases hl : lastLookup rest k with
    | some v => rfl
    | none =>
      by_cases hp : p.1 = k
      · rw [if_pos hp, ← hp, mapGet_mapSetRaw_self]
      · rw [if_neg hp, mapGet_mapSetRaw_ne m p.1 p.2 k (fun he => hp he.symm)]

theorem mapGet_mapOfEntriesRaw (l : List (String × String)) (k : String) :
    mapGet (mapOfEntriesRaw l) k = lastLookup l k := by
  rw [mapOfEntriesRaw, mapGet_foldl_setRaw l [] k]
  cases lastLookup l k <;> rfl

theorem mapHas_of_mapGet_some (m : List (String × String)) (k v : String)
    (h : mapGet m k = some v) : mapHas m k = true := by
  rw [mapHas_eq_isSome_mapGet, h]
  rfl

theorem lastLookup_eq_mapGet_of_unique (l : List (String × String)) (k : String)
    (h : keysUnique l = true) : lastLookup l k = mapGet l k := by
  induction l with
  | nil => rfl
  | cons p rest ih =>
    simp only [keysUnique, Bool.and_eq_true, Bool.not_eq_true'] at h
    simp only [lastLookup, mapGet]
    cases hl : lastLookup rest k with
    | some v =>
      have hg : mapGet rest k = some v := by rw [← ih h.2, hl]
      by_cases hp : p.1 = k
      · rw [hp] at h
        rw [mapHas_of_mapGet_some rest k v hg] at h
        cases h.1
      · simp only [hg, if_neg hp]
    | none =>
      by_cases hp : p.1 = k
      · rw [if_pos hp, if_pos hp]
      · rw [if_neg hp, if_neg hp, ← ih h.2, hl]

theorem jsonStringify_obj_getLast (l : List (String × JSValue)) :
    (jsonStringify (JSValue.obj l)).data.getLast? = some (Char.ofNat 125) := by
  show ("\x7b" ++ jsonObjBody l ++ "\x7d").data.getLast? = some (Char.ofNat 125)
  rw [String.data_append, String.data_append,
    show ("\x7d").data = [Char.ofNat 125] from rfl]
  exact List.getLast?_concat _

theorem defaultedOptions_plugins (ext : Collaborators) (o : GraphQLServerOptions) :
    (defaultedOptions ext o).plugins = o.plugins := by
  cases h : o.debug <;> simp [defaultedOptions, h]

/-! ## Claim theorems -/

/-- C2: `HeaderMap.set` fails with the "must be lower-case" error for every
name containing an upper-case character — a character that lower-cases to
something else, which is what the check `key.toLowerCase() !== key`
detects, and which in particular every upper-case ASCII letter is; for an
entirely lower-case name (every character its own lower-casing;
equivalently, for ASCII names, one with no upper-case letter) it succeeds
and a subsequent `get` of that name returns exactly the stored value; the
other entries are untouched, key-uniqueness and insertion order are
preserved (a fresh key is appended at the end, an existing key keeps its
position), and `get`/`has`/`delete` behave as on a standard ordered
key-unique mapping. -/
theorem claim_C2_headerMap_set (m : List (String × String)) (name value : String) :
    ((∃ c ∈ name.data, jsCharToLower c ≠ c) →
      HeaderMap.set m name value =
        Except.error ("Headers must be lower-case, unlike " ++ name)) ∧
    (∀ c, isUpperAscii c = true → jsCharToLower c ≠ c) ∧
    ((∀ c ∈ name.data, jsCharToLower c = c) →
      HeaderMap.set m name value = Except.ok (mapSetRaw m name value) ∧
      mapGet (mapSetRaw m name value) name = some value) ∧
    ((∀ c ∈ name.data, c.toNat < 128 ∧ isUpperAscii c = false) →
      HeaderMap.set m name value = Except.ok (mapSetRaw m name value) ∧
      mapGet (mapSetRaw m name value) name = some value) ∧
    (∀ k2, k2 ≠ name → mapGet (mapSetRaw m name value) k2 = mapGet m k2) ∧
    (keysUnique m = true → keysUnique (mapSetRaw m name value) = true) ∧
    (mapHas m name = false → mapSetRaw m name value = m ++ [(name, value)]) ∧
    (mapHas m name = (mapGet m name).isSome) ∧
    (keysUnique m = true →
      mapGet (mapDelete m name) name = none ∧ keysUnique (mapDelete m name) = true) ∧
    (∀ k2, k2 ≠ name → mapGet (mapDelete m name) k2 = mapGet m k2) := by
  have hsucc : (∀ c ∈ name.data, jsCharToLower c = c) →
      HeaderMap.set m name value = Except.ok (mapSetRaw m name value) ∧
      mapGet (mapSetRaw m name value) name = some value := by
    intro h
    have he : jsToLowerCase name = name := (jsToLowerCase_eq_self_iff name).mpr h
    exact ⟨HeaderMap.set_eq_ok m name value he, mapGet_mapSetRaw_self m name value⟩
  refine ⟨?_, fun c => jsCharToLower_ne_of_upperAscii c, hsucc, ?_, ?_, ?_, ?_, ?_, ?_, ?_⟩
  · intro ⟨c, hc, hne⟩
    have hneq : jsToLowerCase name ≠ name := by
      intro he
      exact hne ((jsToLowerCase_eq_self_iff name).mp he c hc)
    unfold HeaderMap.set
    rw [if_pos hneq]
  · intro h
    exact hsucc (fun c hc => jsCharToLower_eq_of_ascii_not_upper c (h c hc).1 (h c hc).2)
  · intro k2 hk2
    exact mapGet_mapSetRaw_ne m name value k2 hk2
  · exact keysUnique_mapSetRaw m name value
  · intro h
    unfold mapSetRaw
    rw [if_neg (by simp [h])]
  · exact mapHas_eq_isSome_mapGet m name
  · intro h
    exact ⟨mapGet_mapDelete_self m name h, keysUnique_mapDelete m name h⟩
  · intro k2 hk2
    exact mapGet_mapDelete_ne m name k2 hk2

/-- Witness for C2 at concrete inputs: an ASCII name with upper-case
letters and a non-ASCII upper-case name are both rejected, a lower-case
name round-trips. -/
theorem claim_C2_witness :
    (∃ c ∈ "Content-Type".data, jsCharToLower c ≠ c) ∧
    HeaderMap.set [] "Content-Type" "text/html" =
      Except.error ("Headers must be lower-case, unlike " ++ "Content-Type") ∧
    (∃ c ∈ "É".data, jsCharToLower c ≠ c) ∧
    HeaderMap.set [] "É" "x" =
      Except.error ("Headers must be lower-case, unlike " ++ "É") ∧
    (∀ c ∈ "content-type".data, jsCharToLower c = c) ∧
    HeaderMap.set [] "content-type" "text/html" =
      Except.ok (mapSetRaw [] "content-type" "text/html") ∧
    mapGet (mapSetRaw [] "content-type" "text/html") "content-type" = some "text/html" :=
  ⟨by decide,
   (claim_C2_headerMap_set [] "Content-Type" "text/html").1 (by decide),
   by decide,
   (claim_C2_headerMap_set [] "É" "x").1 (by decide),
   by decide,
   ((claim_C2_headerMap_set [] "content-type" "text/html").2.2.1 (by decide)).1,
   ((claim_C2_headerMap_set [] "content-type" "text/html").2.2.1 (by decide)).2⟩

/-- C3: for every request whose method is neither GET nor POST, and for every
choice of collaborators (so in particular whatever the pipeline would do —
it cannot be invoked, since the response does not depend on it), the adapter
answers 405 with the `allow: GET, POST` header and the "supports only
GET/POST requests" message, converted through the protocol error's own
response shape (plain-text content type). -/
theorem claim_C3_method_not_allowed (ext : Collaborators) (req : HTTPGraphQLRequest)
    (ctx : JSValue) (opts : GraphQLServerOptions)
    (hP : req.method ≠ "POST") (hG : req.method ≠ "GET") :
    (runHttpQuery ext req ctx opts).1 =
      { statusCode := some 405,
        headers := [("content-type", "text/plain"), ("allow", "GET, POST")],
        completeBody := some "Apollo Server supports only GET/POST requests.",
        bodyChunks := none } ∧
    mapGet (runHttpQuery ext req ctx opts).1.headers "allow" = some "GET, POST" := by
  have hnorm : normalizeRequest ext req =
      Except.ok (Sum.inl
        { statusCode := some 405,
          headers := [("content-type", "text/plain"), ("allow", "GET, POST")],
          completeBody := some "Apollo Server supports only GET/POST requests.",
          bodyChunks := none }) := by
    unfold normalizeRequest
    simp only [hP, hG, if_false, ite_false]
    rfl
  have hrun : (runHttpQuery ext req ctx opts).1 =
      { statusCode := some 405,
        headers := [("content-type", "text/plain"), ("allow", "GET, POST")],
        completeBody := some "Apollo Server supports only GET/POST requests.",
        bodyChunks := none } := by
    unfold runHttpQuery runHttpQueryTry
    rw [hnorm]
    rfl
  exact ⟨hrun, by rw [hrun]; rfl⟩

/-- Witness for C3 at a concrete PUT request. -/
theorem claim_C3_witness :
    ("PUT" ≠ "POST" ∧ "PUT" ≠ "GET") ∧
    (runHttpQuery (testCollaborators (constPipeline okDataResponse) (fun _ => none))
        testPutRequest (JSValue.obj []) testOptions).1 =
      { statusCode := some 405,
        headers := [("content-type", "text/plain"), ("allow", "GET, POST")],
        completeBody := some "Apollo Server supports only GET/POST requests.",
        bodyChunks := none } :=
  ⟨⟨by decide, by decide⟩,
   (claim_C3_method_not_allowed
     (testCollaborators (constPipeline okDataResponse) (fun _ => none))
     testPutRequest (JSValue.obj []) testOptions (by decide) (by decide)).1⟩

/-- C4: for every POST request whose parsed body is not a non-empty
string-keyed record — in particular a missing or null body, an empty object,
an array or a raw byte buffer — and for every choice of collaborators (so
the pipeline is never consulted), the adapter answers 400 with the "POST
body missing" message. -/
theorem claim_C4_post_body_missing (ext : Collaborators) (req : HTTPGraphQLRequest)
    (ctx : JSValue) (opts : GraphQLServerOptions)
    (hP : req.method = "POST") (hbody : isNonEmptyStringRecord req.body = false) :
    (runHttpQuery ext req ctx opts).1 =
      { statusCode := some 400,
        headers := [("content-type", "text/plain")],
        completeBody :=
          some "POST body missing, invalid Content-Type, or JSON object has no keys.",
        bodyChunks := none } ∧
    isNonEmptyStringRecord JSValue.undefined = false ∧
    isNonEmptyStringRecord JSValue.null = false ∧
    isNonEmptyStringRecord (JSValue.obj []) = false ∧
    (∀ l, isNonEmptyStringRecord (JSValue.arr l) = false) ∧
    (∀ bs, isNonEmptyStringRecord (JSValue.buffer bs) = false) := by
  have hnorm : normalizeRequest ext req =
      Except.ok (Sum.inl
        { statusCode := some 400,
          headers := [("content-type", "text/plain")],
          completeBody :=
            some "POST body missing, invalid Content-Type, or JSON object has no keys.",
          bodyChunks := none }) := by
    unfold normalizeRequest
    simp only [hP, hbody, if_true, ite_true, Bool.not_false]
    rfl
  refine ⟨?_, rfl, rfl, rfl, fun l => rfl, fun bs => rfl⟩
  unfold runHttpQuery runHttpQueryTry
  rw [hnorm]
  rfl

/-- Witness for C4 at a POST request with an empty-object body. -/
theorem claim_C4_witness :
    isNonEmptyStringRecord (JSValue.obj []) = false ∧
    (runHttpQuery (testCollaborators (constPipeline okDataResponse) (fun _ => none))
        { method := "POST", body := JSValue.obj [], searchParams := JSValue.undefined,
          headers := [] } (JSValue.obj []) testOptions).1 =
      { statusCode := some 400,
        headers := [("content-type", "text/plain")],
        completeBody :=
          some "POST body missing, invalid Content-Type, or JSON object has no keys.",
        bodyChunks := none } :=
  ⟨rfl,
   (claim_C4_post_body_missing
     (testCollaborators (constPipeline okDataResponse) (fun _ => none))
     { method := "POST", body := JSValue.obj [], searchParams := JSValue.undefined,
       headers := [] } (JSValue.obj []) testOptions rfl rfl).1⟩

/-- C1: `runHttpQuery` is a total function into responses (it is defined for
every input and, by the three exhaustive cases below, every outcome of the
protected block is converted rather than re-raised).  When the protected
block throws an `HttpQueryError`, the response is its own conversion: the
error's status, the error's message as the complete body, and a header map
seeded with `content-type: text/plain` followed by the error's own headers,
so that an error-supplied `content-type` (unique by the constructor
invariant) overrides the default.  When it throws anything else, the
response is a 500 with `content-type: application/json` and a JSON
`errors` envelope produced by the external error formatter from the
`debug`/`formatError` configuration. -/
theorem claim_C1_total_catch (ext : Collaborators) (req : HTTPGraphQLRequest)
    (ctx : JSValue) (opts : GraphQLServerOptions) (e : HttpQueryError) (err : JSError) :
    (∀ r, runHttpQueryTry ext req ctx (defaultedOptions ext opts) = Except.ok r →
      (runHttpQuery ext req ctx opts).1 = r) ∧
    (runHttpQueryTry ext req ctx (defaultedOptions ext opts) =
        Except.error (Exc.httpQueryError e) →
      (runHttpQuery ext req ctx opts).1 = e.asHTTPGraphQLResponse ∧
      (runHttpQuery ext req ctx opts).1.statusCode = some e.statusCode ∧
      (runHttpQuery ext req ctx opts).1.completeBody = some e.message ∧
      (runHttpQuery ext req ctx opts).1.headers =
        mapOfEntriesRaw (("content-type", "text/plain") :: e.headers) ∧
      (isValidHeaderMap e.headers = true →
        (∀ v, mapGet e.headers "content-type" = some v →
          mapGet (runHttpQuery ext req ctx opts).1.headers "content-type" = some v) ∧
        (mapGet e.headers "content-type" = none →
          mapGet (runHttpQuery ext req ctx opts).1.headers "content-type" =
            some "text/plain"))) ∧
    (runHttpQueryTry ext req ctx (defaultedOptions ext opts) =
        Except.error (Exc.other err) →
      (runHttpQuery ext req ctx opts).1 =
        { statusCode := some 500,
          headers := [("content-type", "application/json")],
          completeBody := some (prettyJSONStringify (JSValue.obj
            [("errors", JSValue.arr (ext.formatApolloErrors [err]
              (defaultedOptions ext opts).debug (defaultedOptions ext opts).formatError))])),
          bodyChunks := none }) := by
  refine ⟨?_, ?_, ?_⟩
  · intro r h
    simp only [runHttpQuery]
    rw [h]
  · intro h
    have hrun : (runHttpQuery ext req ctx opts).1 = e.asHTTPGraphQLResponse := by
      simp only [runHttpQuery]
      rw [h]
      rfl
    refine ⟨hrun, by rw [hrun]; rfl, by rw [hrun]; rfl, by rw [hrun]; rfl, ?_⟩
    intro hvalid
    have huniq : keysUnique e.headers = true := by
      simp only [isValidHeaderMap, Bool.and_eq_true] at hvalid
      exact hvalid.1
    have hget : mapGet (runHttpQuery ext req ctx opts).1.headers "content-type" =
        lastLookup (("content-type", "text/plain") :: e.headers) "content-type" := by
      rw [hrun]
      exact mapGet_mapOfEntriesRaw _ "content-type"
    constructor
    · intro v hv
      rw [hget]
      simp only [lastLookup]
      rw [lastLookup_eq_mapGet_of_unique e.headers "content-type" huniq, hv]
    · intro hnone
      rw [hget]
      simp only [lastLookup]
      rw [lastLookup_eq_mapGet_of_unique e.headers "content-type" huniq, hnone]
      simp
  · intro h
    simp only [runHttpQuery]
    rw [h]
    rfl

/-- Witness for C1 at a GET request whose `variables` parameter fails to
parse: the protected block throws the 400 protocol error and the catch
converts it. -/
theorem claim_C1_witness :
    runHttpQueryTry (testCollaborators (constPipeline okDataResponse) (fun _ => none))
        testGetRequestBadVars (JSValue.obj [])
        (defaultedOptions (testCollaborators (constPipeline okDataResponse) (fun _ => none))
          testOptions) =
      Except.error (Exc.httpQueryError invalidJSONVariablesError) ∧
    (runHttpQuery (testCollaborators (constPipeline okDataResponse) (fun _ => none))
        testGetRequestBadVars (JSValue.obj []) testOptions).1 =
      invalidJSONVariablesError.asHTTPGraphQLResponse :=
  ⟨rfl,
   ((claim_C1_total_catch (testCollaborators (constPipeline okDataResponse) (fun _ => none))
      testGetRequestBadVars (JSValue.obj []) testOptions invalidJSONVariablesError
      { message := "", extensions := none }).2.1 rfl).1⟩

/-- C5: for GET requests the plugin list handed to the pipeline is the
configured list with the method-policy extension unshifted in front, and for
any other method the list is unchanged; the extension's
`didResolveOperation` hook accepts queries and throws the 405
"GET supports only query operation" protocol error with header
`allow: POST` for every other operation kind; consequently, with a pipeline
that resolves a mutation and propagates what the first plugin's hook throws,
a normalized GET request produces a 405 response carrying `allow: POST`. -/
theorem claim_C5_get_method_policy (ext : Collaborators) (req : HTTPGraphQLRequest)
    (ctx : JSValue) (opts : GraphQLServerOptions) (gql : GraphQLRequest) :
    (∀ ps, requestPlugins "GET" ps = getOnlyQueryPlugin :: ps) ∧
    (∀ me ps, me ≠ "GET" → requestPlugins me ps = ps) ∧
    (∃ l, getOnlyQueryPlugin.requestDidStart () = Except.ok (some l) ∧
      (∀ op : OperationDefinitionNode, op.operation = OperationTypeNode.query →
        l.didResolveOperation op = Except.ok ()) ∧
      (∀ op : OperationDefinitionNode, op.operation ≠ OperationTypeNode.query →
        l.didResolveOperation op = Except.error (Exc.httpQueryError
          { statusCode := 405, message := "GET supports only query operation",
            isGraphQLError := false, headers := [("allow", "POST")] }))) ∧
    (ext.processGraphQLRequest = mutationResolvingPipeline →
      req.method = "GET" →
      normalizeRequest ext req = Except.ok (Sum.inr gql) →
      (runHttpQuery ext req ctx opts).1 =
        { statusCode := some 405,
          headers := [("content-type", "text/plain"), ("allow", "POST")],
          completeBody := some "GET supports only query operation",
          bodyChunks := none } ∧
      mapGet (runHttpQuery ext req ctx opts).1.headers "allow" = some "POST") := by
  refine ⟨fun ps => rfl, ?_, ?_, ?_⟩
  · intro me ps hme
    unfold requestPlugins
    rw [if_neg hme]
  · refine ⟨_, rfl, ?_, ?_⟩
    · intro op hop
      simp only [getOnlyQueryPlugin, hop]
      rfl
    · intro op hop
      simp only [getOnlyQueryPlugin, if_pos hop]
      rfl
  · intro hpg hm hnorm
    have h405 : runHttpQueryTry ext req ctx (defaultedOptions ext opts) =
        Except.error (Exc.httpQueryError
          { statusCode := 405, message := "GET supports only query operation",
            isGraphQLError := false, headers := [("allow", "POST")] }) := by
      unfold runHttpQueryTry
      rw [hnorm, except_bind_ok, hpg]
      simp only [mutationResolvingPipeline, pipelineOptions, hm]
      rfl
    have hrun : (runHttpQuery ext req ctx opts).1 =
        { statusCode := some 405,
          headers := [("content-type", "text/plain"), ("allow", "POST")],
          completeBody := some "GET supports only query operation",
          bodyChunks := none } := by
      simp only [runHttpQuery]
      rw [h405]
      rfl
    exact ⟨hrun, by rw [hrun]; rfl⟩

/-- Witness for C5: a GET request carrying a query string, against the
mutation-resolving pipeline. -/
theorem claim_C5_witness :
    normalizeRequest (testCollaborators mutationResolvingPipeline (fun _ => none))
        testGetQueryRequest =
      Except.ok (Sum.inr
        { query := some "mutation", operationName := none, variables_ := none,
          extensions := none, http := testGetQueryRequest }) ∧
    (runHttpQuery (testCollaborators mutationResolvingPipeline (fun _ => none))
        testGetQueryRequest (JSValue.obj []) testOptions).1 =
      { statusCode := some 405,
        headers := [("content-type", "text/plain"), ("allow", "POST")],
        completeBody := some "GET supports only query operation",
        bodyChunks := none } :=
  ⟨rfl,
   ((claim_C5_get_method_policy (testCollaborators mutationResolvingPipeline (fun _ => none))
      testGetQueryRequest (JSValue.obj []) testOptions
      { query := some "mutation", operationName := none, variables_ := none,
        extensions := none, http := testGetQueryRequest }).2.2.2 rfl rfl rfl).1⟩

/-- C6 counterexample: a pipeline result with errors present and no data
field but without the partial HTTP response attached (`http` absent) falls
within the claim's scope, and the claim then promises a 400; the code
instead spreads `response.http?.headers.entries()`, i.e. `undefined`, which
throws, and the top-level catch answers 500. -/
theorem claim_C6_counterexample :
    (runHttpQuery (testCollaborators (constPipeline preExecNoHttpResponse) (fun _ => none))
        testPostRequest (JSValue.obj []) testOptions).1.statusCode = some 500 ∧
    ¬((runHttpQuery (testCollaborators (constPipeline preExecNoHttpResponse) (fun _ => none))
        testPostRequest (JSValue.obj []) testOptions).1.statusCode = some 400) := by
  constructor
  · rfl
  · rw [show (runHttpQuery (testCollaborators (constPipeline preExecNoHttpResponse)
        (fun _ => none)) testPostRequest (JSValue.obj []) testOptions).1.statusCode =
        some 500 from rfl]
    decide

/-- C6 (amended): for every pipeline result that has errors present and no
data field at all and that carries the partial HTTP response (`http`
present, with lower-case header names, as the header-map invariant
guarantees), the adapter returns the nonzero status set on that partial
response if any and 400 otherwise, with headers copied behind a default
`content-type: application/json`, and a body built directly from the
pipeline's errors and extensions; the external error formatter is not
invoked — the same response results for every formatter.  (When `http` is
absent the header spread throws instead and the top-level catch answers
500, per the counterexample.) -/
theorem claim_C6_preexec_failure (ext : Collaborators) (req : HTTPGraphQLRequest)
    (ctx : JSValue) (opts : GraphQLServerOptions) (gql : GraphQLRequest)
    (resp : GraphQLResponse) (pending : PendingHTTPResponse)
    (errs : List JSValue) (p : PendingHTTPResponse)
    (hnorm : normalizeRequest ext req = Except.ok (Sum.inr gql))
    (hpipe : ext.processGraphQLRequest
        (pipelineOptions req (defaultedOptions ext opts))
        (buildRequestContext ctx (pipelineOptions req (defaultedOptions ext opts)) gql) =
      Except.ok (resp, pending))
    (herr : resp.errors = some errs)
    (hdata : resp.data_ = none)
    (hhttp : resp.http = some p)
    (hlower : headersAllLower p.headers = true) :
    (runHttpQuery ext req ctx opts).1 =
      { statusCode := some (statusOrDefault (some p)),
        headers := mapOfEntriesRaw (("content-type", "application/json") :: p.headers),
        completeBody := some (prettyJSONStringify (JSValue.obj
          [("errors", JSValue.arr errs), ("extensions", optJS resp.extensions)])),
        bodyChunks := none } ∧
    (p.statusCode = none → statusOrDefault (some p) = 400) ∧
    (p.statusCode = some 0 → statusOrDefault (some p) = 400) ∧
    (∀ n, p.statusCode = some n → n ≠ 0 → statusOrDefault (some p) = n) ∧
    (∀ f2, (runHttpQuery { ext with formatApolloErrors := f2 } req ctx opts).1 =
      { statusCode := some (statusOrDefault (some p)),
        headers := mapOfEntriesRaw (("content-type", "application/json") :: p.headers),
        completeBody := some (prettyJSONStringify (JSValue.obj
          [("errors", JSValue.arr errs), ("extensions", optJS resp.extensions)])),
        bodyChunks := none }) := by
  have hlower2 : headersAllLower (("content-type", "application/json") :: p.headers) = true := by
    simp only [headersAllLower, List.all_cons] at hlower ⊢
    rw [hlower]
    rfl
  have core : ∀ e2 : Collaborators,
      normalizeRequest e2 req = Except.ok (Sum.inr gql) →
      e2.processGraphQLRequest
          (pipelineOptions req (defaultedOptions e2 opts))
          (buildRequestContext ctx (pipelineOptions req (defaultedOptions e2 opts)) gql) =
        Except.ok (resp, pending) →
      (runHttpQuery e2 req ctx opts).1 =
        { statusCode := some (statusOrDefault (some p)),
          headers := mapOfEntriesRaw (("content-type", "application/json") :: p.headers),
          completeBody := some (prettyJSONStringify (JSValue.obj
            [("errors", JSValue.arr errs), ("extensions", optJS resp.extensions)])),
          bodyChunks := none } := by
    intro e2 hn hp
    have htry : runHttpQueryTry e2 req ctx (defaultedOptions e2 opts) =
        Except.ok
          { statusCode := some (statusOrDefault (some p)),
            headers := mapOfEntriesRaw (("content-type", "application/json") :: p.headers),
            completeBody := some (prettyJSONStringify (JSValue.obj
              [("errors", JSValue.arr errs), ("extensions", optJS resp.extensions)])),
            bodyChunks := none } := by
      simp only [runHttpQueryTry]
      rw [hn, except_bind_ok]
      show (e2.processGraphQLRequest
              (pipelineOptions req (defaultedOptions e2 opts))
              (buildRequestContext ctx (pipelineOptions req (defaultedOptions e2 opts)) gql) >>=
            fun d => translateResponse d.1 d.2) = _
      rw [hp, except_bind_ok]
      show translateResponse resp pending = _
      simp only [translateResponse, herr, hdata, hhttp]
      rw [headerMapOfEntries_of_valid _ hlower2]
    simp only [runHttpQuery]
    rw [htry]
  refine ⟨core ext hnorm hpipe, ?_, ?_, ?_, ?_⟩
  · intro h
    show (match p.statusCode with
          | none => 400
          | some n => if n = 0 then 400 else n) = 400
    rw [h]
  · intro h
    show (match p.statusCode with
          | none => 400
          | some n => if n = 0 then 400 else n) = 400
    rw [h]
    rfl
  · intro n h hn
    show (match p.statusCode with
          | none => 400
          | some n2 => if n2 = 0 then 400 else n2) = n
    rw [h]
    show (if n = 0 then 400 else n) = n
    rw [if_neg hn]
  · intro f2
    exact core { ext with formatApolloErrors := f2 } hnorm hpipe

/-- Witness for C6 (amended) at a POST request against a pipeline reporting
a pre-execution failure that carries the shared partial response. -/
theorem claim_C6_witness :
    normalizeRequest (testCollaborators (constPipeline preExecWithHttpResponse)
        (fun _ => none)) testPostRequest =
      Except.ok (Sum.inr
        { query := some "hello", operationName := none, variables_ := none,
          extensions := none, http := testPostRequest }) ∧
    (runHttpQuery (testCollaborators (constPipeline preExecWithHttpResponse)
        (fun _ => none)) testPostRequest (JSValue.obj []) testOptions).1 =
      { statusCode := some (statusOrDefault (some { headers := [], statusCode := none })),
        headers := mapOfEntriesRaw [("content-type", "application/json")],
        completeBody := some (prettyJSONStringify (JSValue.obj
          [("errors", JSValue.arr [JSValue.obj [("message", JSValue.str "parse error")]]),
           ("extensions", optJS none)])),
        bodyChunks := none } :=
  ⟨rfl,
   (claim_C6_preexec_failure
     (testCollaborators (constPipeline preExecWithHttpResponse) (fun _ => none))
     testPostRequest (JSValue.obj []) testOptions
     { query := some "hello", operationName := none, variables_ := none,
       extensions := none, http := testPostRequest }
     preExecWithHttpResponse initialPending
     [JSValue.obj [("message", JSValue.str "parse error")]]
     { headers := [], statusCode := none }
     rfl rfl rfl rfl rfl rfl).1⟩

/-- C7: for every normal pipeline completion (errors absent, or a data field
present), the body is the JSON serialization of the envelope with the fixed
key order `errors, data, extensions` (absent fields skipped) followed by
exactly one trailing newline (the serialized object ends in a closing brace,
not a newline), and the `content-length` header is set on the shared scratch
response to the decimal UTF-8 byte length of the body, the response being
spread from that scratch object. -/
theorem claim_C7_normal_completion (ext : Collaborators) (req : HTTPGraphQLRequest)
    (ctx : JSValue) (opts : GraphQLServerOptions) (gql : GraphQLRequest)
    (resp : GraphQLResponse) (pending : PendingHTTPResponse)
    (hnorm : normalizeRequest ext req = Except.ok (Sum.inr gql))
    (hpipe : ext.processGraphQLRequest
        (pipelineOptions req (defaultedOptions ext opts))
        (buildRequestContext ctx (pipelineOptions req (defaultedOptions ext opts)) gql) =
      Except.ok (resp, pending))
    (hcase : resp.errors = none ∨ resp.data_ ≠ none) :
    (runHttpQuery ext req ctx opts).1 =
      { statusCode := pending.statusCode,
        headers := mapSetRaw pending.headers "content-length"
          (Nat.repr (prettyJSONStringify (serializeGraphQLResponse resp)).utf8ByteSize),
        completeBody := some (prettyJSONStringify (serializeGraphQLResponse resp)),
        bodyChunks := none } ∧
    serializeGraphQLResponse resp = JSValue.obj
      [("errors", match resp.errors with
                  | some es => JSValue.arr es
                  | none => JSValue.undefined),
       ("data", optJS resp.data_),
       ("extensions", optJS resp.extensions)] ∧
    prettyJSONStringify (serializeGraphQLResponse resp) =
      jsonStringify (serializeGraphQLResponse resp) ++ "\n" ∧
    (jsonStringify (serializeGraphQLResponse resp)).data.getLast? =
      some (Char.ofNat 125) ∧
    Char.ofNat 125 ≠ Char.ofNat 10 ∧
    mapGet (mapSetRaw pending.headers "content-length"
        (Nat.repr (prettyJSONStringify (serializeGraphQLResponse resp)).utf8ByteSize))
      "content-length" =
      some (Nat.repr (prettyJSONStringify (serializeGraphQLResponse resp)).utf8ByteSize) := by
  have harm : translateResponse resp pending =
      Except.ok
        { statusCode := pending.statusCode,
          headers := mapSetRaw pending.headers "content-length"
            (Nat.repr (prettyJSONStringify (serializeGraphQLResponse resp)).utf8ByteSize),
          completeBody := some (prettyJSONStringify (serializeGraphQLResponse resp)),
          bodyChunks := none } := by
    rcases hcase with hc | hc
    · unfold translateResponse
      rw [hc]
      rfl
    · cases hd : resp.data_ with
      | none => exact absurd hd hc
      | some d =>
        cases herrs : resp.errors with
        | none =>
          unfold translateResponse
          rw [herrs]
          rfl
        | some es =>
          unfold translateResponse
          rw [herrs, hd]
          rfl
  have htry : runHttpQueryTry ext req ctx (defaultedOptions ext opts) =
      Except.ok
        { statusCode := pending.statusCode,
          headers := mapSetRaw pending.headers "content-length"
            (Nat.repr (prettyJSONStringify (serializeGraphQLResponse resp)).utf8ByteSize),
          completeBody := some (prettyJSONStringify (serializeGraphQLResponse resp)),
          bodyChunks := none } := by
    simp only [runHttpQueryTry]
    rw [hnorm, except_bind_ok]
    show (ext.processGraphQLRequest
            (pipelineOptions req (defaultedOptions ext opts))
            (buildRequestContext ctx (pipelineOptions req (defaultedOptions ext opts)) gql) >>=
          fun d => translateResponse d.1 d.2) = _
    rw [hpipe, except_bind_ok]
    exact harm
  refine ⟨?_, rfl, rfl, jsonStringify_obj_getLast _, by decide,
    mapGet_mapSetRaw_self _ _ _⟩
  simp only [runHttpQuery]
  rw [htry]

/-- Witness for C7 at a POST request against a pipeline returning data. -/
theorem claim_C7_witness :
    (okDataResponse.errors = none ∨ okDataResponse.data_ ≠ none) ∧
    (runHttpQuery (testCollaborators (constPipeline okDataResponse) (fun _ => none))
        testPostRequest (JSValue.obj []) testOptions).1 =
      { statusCode := initialPending.statusCode,
        headers := mapSetRaw initialPending.headers "content-length"
          (Nat.repr (prettyJSONStringify (serializeGraphQLResponse okDataResponse)).utf8ByteSize),
        completeBody := some (prettyJSONStringify (serializeGraphQLResponse okDataResponse)),
        bodyChunks := none } :=
  ⟨Or.inl rfl,
   (claim_C7_normal_completion
     (testCollaborators (constPipeline okDataResponse) (fun _ => none))
     testPostRequest (JSValue.obj []) testOptions
     { query := some "hello", operationName := none, variables_ := none,
       extensions := none, http := testPostRequest }
     okDataResponse initialPending rfl rfl (Or.inl rfl)).1⟩

/-- C8: a non-empty string `variables`/`extensions` search parameter is
JSON-deserialized; a parse failure yields a 400 naming the field and saying
it contains invalid JSON, a parse result that is not a string-keyed object
yields a 400 asking for a JSON-encoded object, a successful object parse is
extracted, and an absent or empty-string field extracts nothing without
error; consequently a GET request whose `variables` text fails to parse is
answered with that 400. -/
theorem claim_C8_get_search_params (jp : String → Option JSValue) (o : JSValue)
    (f s : String) (v : JSValue) (ext : Collaborators) (req : HTTPGraphQLRequest)
    (ctx : JSValue) (opts : GraphQLServerOptions) :
    (jsField o f = JSValue.str s → s ≠ "" → jp s = none →
      jsonParsedFieldIfNonEmptyString jp o f = Except.error (Exc.httpQueryError
        { statusCode := 400,
          message := "The " ++ f ++ " search parameter contains invalid JSON.",
          isGraphQLError := false, headers := [] })) ∧
    (jsField o f = JSValue.str s → s ≠ "" → jp s = some v → isStringRecord v = false →
      jsonParsedFieldIfNonEmptyString jp o f = Except.error (Exc.httpQueryError
        { statusCode := 400,
          message := "The " ++ f ++ " search parameter should contain a JSON-encoded object.",
          isGraphQLError := false, headers := [] })) ∧
    (jsField o f = JSValue.str s → s ≠ "" → jp s = some v → isStringRecord v = true →
      jsonParsedFieldIfNonEmptyString jp o f = Except.ok (some v)) ∧
    (jsField o f = JSValue.str "" →
      jsonParsedFieldIfNonEmptyString jp o f = Except.ok none) ∧
    (isJSString (jsField o f) = false →
      jsonParsedFieldIfNonEmptyString jp o f = Except.ok none) ∧
    (req.method = "GET" →
      isNonEmptyStringRecord req.searchParams = true →
      ensureQueryIsStringOrMissing (jsField req.searchParams "query") = Except.ok () →
      jsField req.searchParams "variables" = JSValue.str s → s ≠ "" →
      ext.jsonParse s = none →
      (runHttpQuery ext req ctx opts).1 =
        { statusCode := some 400,
          headers := [("content-type", "text/plain")],
          completeBody := some "The variables search parameter contains invalid JSON.",
          bodyChunks := none }) := by
  refine ⟨?_, ?_, ?_, ?_, ?_, ?_⟩
  · intro h1 h2 h3
    unfold jsonParsedFieldIfNonEmptyString
    rw [h1]
    show (if s ≠ "" then _ else _) = _
    rw [if_pos h2, h3]
    rfl
  · intro h1 h2 h3 h4
    unfold jsonParsedFieldIfNonEmptyString
    rw [h1]
    show (if s ≠ "" then _ else _) = _
    rw [if_pos h2, h3]
    show (if !isStringRecord v then _ else _) = _
    rw [h4]
    rfl
  · intro h1 h2 h3 h4
    unfold jsonParsedFieldIfNonEmptyString
    rw [h1]
    show (if s ≠ "" then _ else _) = _
    rw [if_pos h2, h3]
    show (if !isStringRecord v then _ else _) = _
    rw [h4]
    rfl
  · intro h4
    unfold jsonParsedFieldIfNonEmptyString
    rw [h4]
    rfl
  · intro h5
    unfold jsonParsedFieldIfNonEmptyString
    cases hv : jsField o f <;>
      first
      | rfl
      | (rw [hv] at h5; simp [isJSString] at h5)
  · intro hm hsp hq hv hs hjp
    have hvarErr : jsonParsedFieldIfNonEmptyString ext.jsonParse req.searchParams
        "variables" = Except.error (Exc.httpQueryError
          { statusCode := 400,
            message := "The variables search parameter contains invalid JSON.",
            isGraphQLError := false, headers := [] }) := by
      unfold jsonParsedFieldIfNonEmptyString
      rw [hv]
      show (if s ≠ "" then _ else _) = _
      rw [if_pos hs, hjp]
      rfl
    have hnorm : normalizeRequest ext req = Except.error (Exc.httpQueryError
        { statusCode := 400,
          message := "The variables search parameter contains invalid JSON.",
          isGraphQLError := false, headers := [] }) := by
      unfold normalizeRequest
      rw [hm]
      simp only [hsp]
      rw [hq, except_bind_ok, hvarErr, except_bind_error]
      rfl
    simp only [runHttpQuery, runHttpQueryTry]
    rw [hnorm, except_bind_error]
    rfl

/-- Witness for C8 at a GET request with `variables` set to text that fails
to parse, against a parser rejecting everything. -/
theorem claim_C8_witness :
    jsField testGetRequestBadVars.searchParams "variables" = JSValue.str "###" ∧
    ("###" : String) ≠ "" ∧
    (runHttpQuery (testCollaborators (constPipeline okDataResponse) (fun _ => none))
        testGetRequestBadVars (JSValue.obj []) testOptions).1 =
      { statusCode := some 400,
        headers := [("content-type", "text/plain")],
        completeBody := some "The variables search parameter contains invalid JSON.",
        bodyChunks := none } :=
  ⟨rfl, by decide,
   (claim_C8_get_search_params (fun _ => none) testGetRequestBadVars.searchParams
     "variables" "###" JSValue.null
     (testCollaborators (constPipeline okDataResponse) (fun _ => none))
     testGetRequestBadVars (JSValue.obj []) testOptions).2.2.2.2.2
     rfl rfl rfl rfl (by decide) rfl⟩

/-- C9: when the user context function resolves, the executor returns the
context with a null error response; when it throws, the executor returns an
error response whose body is the standard envelope of the externally
formatted error, whose message carries the "Context creation failed: "
prefix, and whose status is 400 exactly when the error carries a truthy
`extensions.code` different from the generic internal-error code, 500
otherwise.  (Rewriting the message leaves `extensions` unchanged, so the
code test on the rewritten error is the test on the original.) -/
theorem claim_C9_context_function_executor
    (fmt : List JSError → Option Bool → Option FormatErrorHook → List JSValue)
    (cf : Unit → Except JSError JSValue) (options : ContextFunctionOptions)
    (c : JSValue) (e : JSError) :
    (cf () = Except.ok c →
      executeContextFunction fmt cf options = ContextFunctionExecutionResult.success c) ∧
    (cf () = Except.error e →
      executeContextFunction fmt cf options = ContextFunctionExecutionResult.failure
        { statusCode := some (if isNonInternalErrorCode e then 400 else 500),
          headers := [("content-type", "application/json")],
          completeBody := some (prettyJSONStringify (JSValue.obj
            [("errors", JSValue.arr (fmt
              [{ e with message := "Context creation failed: " ++ e.message }]
              options.debug options.formatter))])),
          bodyChunks := none } ∧
      isNonInternalErrorCode { e with message := "Context creation failed: " ++ e.message } =
        isNonInternalErrorCode e) := by
  constructor
  · intro h
    unfold executeContextFunction
    rw [h]
  · intro h
    refine ⟨?_, rfl⟩
    unfold executeContextFunction
    rw [h]
    rfl

/-- Witness for C9: a rejecting context function carrying the
`UNAUTHENTICATED` code yields a 400 with the prefixed message. -/
theorem claim_C9_witness :
    (fun _ : Unit => (Except.error
        { message := "no token",
          extensions := some [("code", JSValue.str "UNAUTHENTICATED")] } :
        Except JSError JSValue)) () =
      (Except.error
        { message := "no token",
          extensions := some [("code", JSValue.str "UNAUTHENTICATED")] } :
        Except JSError JSValue) ∧
    executeContextFunction testFormatApolloErrors
      (fun _ => (Except.error
        { message := "no token",
          extensions := some [("code", JSValue.str "UNAUTHENTICATED")] } :
        Except JSError JSValue))
      { formatter := none, debug := some false } =
      ContextFunctionExecutionResult.failure
        { statusCode := some (if isNonInternalErrorCode
            { message := "no token",
              extensions := some [("code", JSValue.str "UNAUTHENTICATED")] }
            then 400 else 500),
          headers := [("content-type", "application/json")],
          completeBody := some (prettyJSONStringify (JSValue.obj
            [("errors", JSValue.arr (testFormatApolloErrors
              [{ message := "Context creation failed: " ++ "no token",
                 extensions := some [("code", JSValue.str "UNAUTHENTICATED")] }]
              (some false) none))])),
          bodyChunks := none } :=
  ⟨rfl,
   ((claim_C9_context_function_executor testFormatApolloErrors
      (fun _ => (Except.error
        { message := "no token",
          extensions := some [("code", JSValue.str "UNAUTHENTICATED")] } :
        Except JSError JSValue))
      { formatter := none, debug := some false } JSValue.null
      { message := "no token",
        extensions := some [("code", JSValue.str "UNAUTHENTICATED")] }).2 rfl).1⟩

/-- C10: when the caller's `options.debug` is unset, `runHttpQuery` writes
the nodeEnv-derived default (true unless the effective node environment is
`production` or `test`) onto the caller's options object before taking its
local copy, so the write is visible to the caller after the call and
persists across subsequent calls sharing the object; no other field of the
caller's options object is modified, and an already-set `debug` leaves the
object untouched. -/
theorem claim_C10_options_debug_mutation (ext : Collaborators)
    (req : HTTPGraphQLRequest) (ctx : JSValue) (opts : GraphQLServerOptions) :
    (runHttpQuery ext req ctx opts).2 = defaultedOptions ext opts ∧
    (opts.debug = none →
      (runHttpQuery ext req ctx opts).2.debug =
        some (debugFromNodeEnv (ext.processEnvNodeEnv.getD "") opts.nodeEnv)) ∧
    (∀ b, opts.debug = some b → (runHttpQuery ext req ctx opts).2 = opts) ∧
    (runHttpQuery ext req ctx opts).2.schema = opts.schema ∧
    (runHttpQuery ext req ctx opts).2.logger = opts.logger ∧
    (runHttpQuery ext req ctx opts).2.nodeEnv = opts.nodeEnv ∧
    (runHttpQuery ext req ctx opts).2.plugins = opts.plugins ∧
    (runHttpQuery ext req ctx opts).2.formatError = opts.formatError ∧
    (runHttpQuery ext req ctx opts).2.cache = opts.cache ∧
    (runHttpQuery ext req ctx opts).2.extraFields = opts.extraFields ∧
    (∀ (ext2 : Collaborators) (req2 : HTTPGraphQLRequest) (ctx2 : JSValue),
      (runHttpQuery ext2 req2 ctx2 (runHttpQuery ext req ctx opts).2).2 =
        (runHttpQuery ext req ctx opts).2) := by
  refine ⟨rfl, ?_, ?_, ?_, ?_, ?_, ?_, ?_, ?_, ?_, ?_⟩
  · intro h
    show (defaultedOptions ext opts).debug = _
    unfold defaultedOptions
    rw [h]
  · intro b h
    show defaultedOptions ext opts = opts
    unfold defaultedOptions
    rw [h]
  · show (defaultedOptions ext opts).schema = opts.schema
    cases h : opts.debug <;> simp [defaultedOptions, h]
  · show (defaultedOptions ext opts).logger = opts.logger
    cases h : opts.debug <;> simp [defaultedOptions, h]
  · show (defaultedOptions ext opts).nodeEnv = opts.nodeEnv
    cases h : opts.debug <;> simp [defaultedOptions, h]
  · exact defaultedOptions_plugins ext opts
  · show (defaultedOptions ext opts).formatError = opts.formatError
    cases h : opts.debug <;> simp [defaultedOptions, h]
  · show (defaultedOptions ext opts).cache = opts.cache
    cases h : opts.debug <;> simp [defaultedOptions, h]
  · show (defaultedOptions ext opts).extraFields = opts.extraFields
    cases h : opts.debug <;> simp [defaultedOptions, h]
  · intro ext2 req2 ctx2
    show defaultedOptions ext2 (defaultedOptions ext opts) = defaultedOptions ext opts
    cases h : opts.debug <;> simp [defaultedOptions, h]

/-- Witness for C10 at options with `debug` unset: the returned options
carry the environment default `true`. -/
theorem claim_C10_witness :
    testOptionsNoDebug.debug = none ∧
    (runHttpQuery (testCollaborators (constPipeline okDataResponse) (fun _ => none))
        testPostRequest (JSValue.obj []) testOptionsNoDebug).2.debug =
      some (debugFromNodeEnv
        ((testCollaborators (constPipeline okDataResponse)
          (fun _ => none)).processEnvNodeEnv.getD "")
        testOptionsNoDebug.nodeEnv) :=
  ⟨rfl,
   (claim_C10_options_debug_mutation
     (testCollaborators (constPipeline okDataResponse) (fun _ => none))
     testPostRequest (JSValue.obj []) testOptionsNoDebug).2.1 rfl⟩
